import Mathlib

/-!
SSH guard: session table, traffic sniffer, log tailer and statistics flush.

Shallow embedding of `plugins/inputs/ssh_guard/ssh_guard.go`.

* Go strings are `String`; `fmt.Sprintf("%v:%v", a, b)` is `a ++ ":" ++ b`.
* `uint64` counters are `Nat` with an explicit `% 2 ^ 64` where the code adds.
* `map[string]*sshSession` is an association list read and written only through
  `get`, `set` and `delete`; a `for ... range` loop visits the keys in list
  order, so a statement proved for every list covers every iteration order.
* The accumulator is the list of events handed to `AddFields`, oldest first.
* Library calls are inputs: the result of each `FindStringSubmatch` on a line,
  the rendering `String()` of an address, the table of well-known port names
  used by `TCPPort.String()`, the clock and the device identifier.
-/

namespace ssh_guard

/-! ## Data model -/

/-- Go: `type eventType string`. -/
abbrev eventType := String

def NEW_SSH_NEW_CONN : eventType := "conn"
def NEW_SSH_LOGIN : eventType := "login"
def NEW_SSH_FAILED_LOGIN_ATTEMPT : eventType := "login_attempt_fail"
def NEW_SSH_FINAL_LOGIN_FAILED : eventType := "login_fail"
def NEW_SSH_LOGOUT : eventType := "logout"
def SSH_SESSION_RX_BYTES : eventType := "ssh_session_rx_bytes"
def SSH_SESSION_TX_BYTES : eventType := "ssh_session_tx_bytes"

/-- Go: `type sshSession struct`; every field defaults to Go's zero value. -/
structure sshSession where
  bytesSent : Nat := 0
  bytesRecv : Nat := 0
  user : String := ""
  ip : String := ""
  port : String := ""
  tsMs : Int := 0
  event : eventType := ""
  delete : Bool := false
  deriving DecidableEq, Repr

/-- A value stored in the `Fields` map of an event (`map[string]interface{}`). -/
inductive FieldValue where
  | uint64 (v : Nat)
  | int (v : Int)
  deriving DecidableEq, Repr

/-- Go: `system_utils.TelegrafEvent`; the two maps are lists of key/value pairs
and `Time` is the Unix time in milliseconds. -/
structure TelegrafEvent where
  Fields : List (String × FieldValue)
  Tags : List (String × String)
  DeviceID : String
  Time : Int
  deriving DecidableEq, Repr

/-- Value of a tag of an event (`Tags[name]`, the empty string when absent). -/
def TelegrafEvent.tag (e : TelegrafEvent) (name : String) : String :=
  match e.Tags.find? (fun kv => kv.1 = name) with
  | some kv => kv.2
  | none => ""

/-- Value of a field of an event (`Fields[name]`). -/
def TelegrafEvent.field (e : TelegrafEvent) (name : String) : Option FieldValue :=
  match e.Fields.find? (fun kv => kv.1 = name) with
  | some kv => some kv.2
  | none => none

/-- Go: `func (s *sshSession) TelegrafNormalize()`; `deviceID` is the value of
`system_utils.GetUniqueID()`. -/
def sshSession.TelegrafNormalize (deviceID : String) (s : sshSession) : TelegrafEvent :=
  let user := if s.user = "" then "unknown" else s.user
  let tags := [("ip", s.ip), ("port", s.port), ("group", "SSH"), ("eventType", s.event),
    ("user", user)]
  let fields :=
    if s.event = SSH_SESSION_RX_BYTES then [("connbytes", FieldValue.uint64 s.bytesRecv)]
    else if s.event = SSH_SESSION_TX_BYTES then [("connbytes", FieldValue.uint64 s.bytesSent)]
    else [("authevent", FieldValue.int 1)]
  { Fields := fields, Tags := tags, DeviceID := deviceID, Time := s.tsMs }

/-- Go: `newSshSesion(user, ip, port, event, tsMs)`. -/
def newSshSesion (user ip port : String) (event : eventType) (tsMs : Int) : sshSession :=
  { tsMs := tsMs, user := user, ip := ip, port := port, event := event }

/-! ## The session table `map[string]*sshSession` -/

/-- Go: `sshSessions map[string]*sshSession`, key = `ip:port`. -/
abbrev SessionTable := List (String × sshSession)

/-- Go: `m[k]` with the comma-ok form (`none` when the key is absent). -/
def SessionTable.get : SessionTable → String → Option sshSession
  | [], _ => none
  | (k, v) :: rest, key => if k = key then some v else SessionTable.get rest key

/-- Go: `m[k] = v`, also the effect of writing a field through the stored
pointer: the entry is replaced where it stands, or added when the key is new. -/
def SessionTable.set : SessionTable → String → sshSession → SessionTable
  | [], key, v => [(key, v)]
  | (k, w) :: rest, key, v =>
    if k = key then (k, v) :: rest
    else (k, w) :: SessionTable.set rest key v

/-- Go: `delete(m, k)`. -/
def SessionTable.delete : SessionTable → String → SessionTable
  | [], _ => []
  | (k, v) :: rest, key =>
    if k = key then SessionTable.delete rest key
    else (k, v) :: SessionTable.delete rest key

/-- The keys a `for k := range m` loop visits. -/
def SessionTable.keys (m : SessionTable) : List String :=
  m.map Prod.fst

/-- Go: `fmt.Sprintf("%v:%v", a, b)` on two strings. -/
def sprintfKey (a b : String) : String :=
  a ++ ":" ++ b

/-- Pieces of a character list around every occurrence of `sep`. -/
def splitChars (sep : Char) : List Char → List (List Char)
  | [] => [[]]
  | c :: cs =>
    if c = sep then [] :: splitChars sep cs
    else
      match splitChars sep cs with
      | [] => [[c]]
      | p :: ps => (c :: p) :: ps

/-- Go: `strings.Split(s, ":")`. -/
def Split (s : String) : List String :=
  (splitChars ':' s.data).map String.mk

/-! ## Statistics flush -/

/-- Go: the literal `&sshSession{ip, port, user, tsMs: now.UnixMilli(), bytesRecv,
event: SSH_SESSION_RX_BYTES}` built in `checkBytesStatistics`. -/
def rxMetric (now : Int) (stats : sshSession) : sshSession :=
  { ip := stats.ip, port := stats.port, user := stats.user, tsMs := now,
    bytesRecv := stats.bytesRecv, event := SSH_SESSION_RX_BYTES }

/-- Go: the literal `&sshSession{ip, port, user, tsMs: now.UnixMilli(), bytesSent,
event: SSH_SESSION_TX_BYTES}` built in `checkBytesStatistics`. -/
def txMetric (now : Int) (stats : sshSession) : sshSession :=
  { ip := stats.ip, port := stats.port, user := stats.user, tsMs := now,
    bytesSent := stats.bytesSent, event := SSH_SESSION_TX_BYTES }

/-- Body of the `for session, stats := range ss.sshSessions` loop of
`checkBytesStatistics` for the key `session`; a key whose entry was deleted
earlier in the same loop is not visited. -/
def flushSession (deviceID : String) (now : Int)
    (st : SessionTable × List TelegrafEvent) (session : String) :
    SessionTable × List TelegrafEvent :=
  match st.1.get session with
  | none => st
  | some stats =>
    if stats.bytesRecv = 0 ∧ stats.bytesSent = 0 then
      if stats.delete then (st.1.delete (sprintfKey stats.ip stats.port), st.2)
      else st
    else
      let me_rx := (rxMetric now stats).TelegrafNormalize deviceID
      let me_tx := (txMetric now stats).TelegrafNormalize deviceID
      let acc := st.2 ++ [me_rx, me_tx]
      if stats.delete then (st.1.delete (sprintfKey stats.ip stats.port), acc)
      else (st.1.set session { stats with bytesRecv := 0, bytesSent := 0 }, acc)

/-- One cycle of `checkBytesStatistics` (the code between `Lock` and `Unlock`):
the table after the cycle and the events added to the accumulator. -/
def checkBytesStatistics (deviceID : String) (now : Int) (m : SessionTable) :
    SessionTable × List TelegrafEvent :=
  m.keys.foldl (flushSession deviceID now) (m, [])

/-! ## Traffic sniffer -/

/-- A captured record with both an IPv4 and a TCP layer, as `snifferSshTraffic`
sees it after its nil checks: `SrcIP` and `DstIP` are `ip.SrcIP.String()` and
`ip.DstIP.String()`, the ports are `uint16` values and `CaptureLength` is
`packet.Metadata().CaptureLength`. -/
structure Packet where
  SrcIP : String
  DstIP : String
  SrcPort : Nat
  DstPort : Nat
  CaptureLength : Nat
  deriving DecidableEq, Repr

/-- Go: `layers.TCPPort.String()`: `number(name)` for a port with a well-known
name, the plain decimal number otherwise (the comment above `getKeyMap` shows
`22(ssh)`). The table of well-known names belongs to the capture library and is
the parameter `TCPPortNames`. -/
def TCPPort.String (TCPPortNames : Nat → Option String) (a : Nat) : String :=
  match TCPPortNames a with
  | some name => toString a ++ "(" ++ name ++ ")"
  | none => toString a

/-- Go: `func (ss *SshGuard) getKeyMap(ip, tcp) string`. -/
def getKeyMap (TCPPortNames : Nat → Option String) (localIpInIface : String)
    (SshListenPort : Nat) (pkt : Packet) : String :=
  if localIpInIface = pkt.SrcIP ∧ pkt.SrcPort = SshListenPort then
    sprintfKey pkt.DstIP (TCPPort.String TCPPortNames pkt.DstPort)
  else if localIpInIface = pkt.DstIP then
    sprintfKey pkt.SrcIP (TCPPort.String TCPPortNames pkt.SrcPort)
  else
    ""

/-- Body of the packet loop of `snifferSshTraffic` for one decoded record: the
session table after the record. -/
def snifferSshTraffic (TCPPortNames : Nat → Option String) (localIpInIface : String)
    (SshListenPort : Nat) (m : SessionTable) (pkt : Packet) : SessionTable :=
  let sessionKey := getKeyMap TCPPortNames localIpInIface SshListenPort pkt
  if sessionKey = "" then m
  else
    let m1 :=
      match m.get sessionKey with
      | some _ => m
      | none =>
        m.set sessionKey
          { ip := (Split sessionKey).getD 0 "", port := (Split sessionKey).getD 1 "" }
    let packetSize := pkt.CaptureLength % 2 ^ 64
    if pkt.SrcPort = SshListenPort then
      match m1.get sessionKey with
      | some s => m1.set sessionKey { s with bytesSent := (s.bytesSent + packetSize) % 2 ^ 64 }
      | none => m1
    else if pkt.DstPort = SshListenPort then
      match m1.get sessionKey with
      | some s => m1.set sessionKey { s with bytesRecv := (s.bytesRecv + packetSize) % 2 ^ 64 }
      | none => m1
    else
      m1

/-! ## Log tailer -/

/-- One line read from the log, given by what each regular expression of
`monitorSshLogin` returns on it: every field is the slice returned by
`FindStringSubmatch` (empty when the expression does not match, otherwise the
whole match followed by the capture groups). -/
structure LogLine where
  reTime : List String := []
  reConnection : List String := []
  reFailedLogin : List String := []
  reFinalFailedLogin : List String := []
  reMaxAuthExceeded : List String := []
  reSuccessfulLogin : List String := []
  reDisconnected : List String := []
  reClosed : List String := []
  deriving DecidableEq, Repr

/-- Go: `if session, exists := ss.sshSessions[sessionKey]; exists { session.user = user }`. -/
def setUserIfExists (m : SessionTable) (sessionKey user : String) : SessionTable :=
  match m.get sessionKey with
  | some session => m.set sessionKey { session with user := user }
  | none => m

/-- Go: `if session, exists := ss.sshSessions[sessionKey]; exists { session.delete = true }`. -/
def setDeleteIfExists (m : SessionTable) (sessionKey : String) : SessionTable :=
  match m.get sessionKey with
  | some session => m.set sessionKey { session with delete := true }
  | none => m

/-- The `if / else if` chain of `monitorSshLogin` on a line with a time stamp:
the table after the line and the metric to emit, if any. -/
def classifyLine (tsMs : Int) (m : SessionTable) (line : LogLine) :
    SessionTable × Option sshSession :=
  if line.reConnection.length = 5 then
    let ip := line.reConnection.getD 1 ""
    let port := line.reConnection.getD 2 ""
    (m, some (newSshSesion "" ip port NEW_SSH_NEW_CONN tsMs))
  else if line.reFailedLogin.length = 6 then
    let user := line.reFailedLogin.getD 3 ""
    let ip := line.reFailedLogin.getD 4 ""
    let port := line.reFailedLogin.getD 5 ""
    let sessionKey := sprintfKey ip port
    let m1 :=
      match m.get sessionKey with
      | some session => m.set sessionKey { session with user := user }
      | none =>
        m.set sessionKey
          { ip := (Split sessionKey).getD 0 "", port := (Split sessionKey).getD 1 "",
            user := user }
    (m1, some (newSshSesion user ip port NEW_SSH_FAILED_LOGIN_ATTEMPT tsMs))
  else if line.reFinalFailedLogin.length = 4 then
    let user := line.reFinalFailedLogin.getD 1 ""
    let ip := line.reFinalFailedLogin.getD 2 ""
    let port := line.reFinalFailedLogin.getD 3 ""
    (setDeleteIfExists m (sprintfKey ip port),
      some (newSshSesion user ip port NEW_SSH_FINAL_LOGIN_FAILED tsMs))
  else if line.reMaxAuthExceeded.length = 4 then
    let user := line.reMaxAuthExceeded.getD 1 ""
    let ip := line.reMaxAuthExceeded.getD 2 ""
    let port := line.reMaxAuthExceeded.getD 3 ""
    (setDeleteIfExists m (sprintfKey ip port),
      some (newSshSesion user ip port NEW_SSH_FINAL_LOGIN_FAILED tsMs))
  else if line.reSuccessfulLogin.length = 4 then
    let user := line.reSuccessfulLogin.getD 1 ""
    let ip := line.reSuccessfulLogin.getD 2 ""
    let port := line.reSuccessfulLogin.getD 3 ""
    (setUserIfExists m (sprintfKey ip port) user,
      some (newSshSesion user ip port NEW_SSH_LOGIN tsMs))
  else if line.reDisconnected.length = 4 then
    let user := line.reDisconnected.getD 1 ""
    let ip := line.reDisconnected.getD 2 ""
    let port := line.reDisconnected.getD 3 ""
    (setDeleteIfExists m (sprintfKey ip port),
      some (newSshSesion user ip port NEW_SSH_LOGOUT tsMs))
  else if line.reClosed.length = 3 then
    let ip := line.reClosed.getD 1 ""
    let port := line.reClosed.getD 2 ""
    let sessionKey := sprintfKey ip port
    let user :=
      match m.get sessionKey with
      | some session => session.user
      | none => ""
    (setDeleteIfExists m sessionKey, some (newSshSesion user ip port NEW_SSH_LOGOUT tsMs))
  else
    (m, none)

/-- Body of the read loop of `monitorSshLogin` for one line that was read
without error: the table after the line and the events handed to the
accumulator. `getTsFromAuditLog` turns the matched time stamp into Unix
milliseconds. -/
def monitorSshLogin (deviceID : String) (getTsFromAuditLog : String → Int)
    (m : SessionTable) (line : LogLine) : SessionTable × List TelegrafEvent :=
  if line.reTime.length ≥ 2 then
    let logTime := line.reTime.getD 1 ""
    let tsMs := getTsFromAuditLog logTime
    let r := classifyLine tsMs m line
    match r.2 with
    | some newMetric => (r.1, [newMetric.TelegrafNormalize deviceID])
    | none => (r.1, [])
  else
    (m, [])

/-- The table after the read loop of `monitorSshLogin` has processed the lines
of `lines` one after the other. -/
def processLines (deviceID : String) (getTsFromAuditLog : String → Int)
    (m : SessionTable) (lines : List LogLine) : SessionTable :=
  lines.foldl (fun t line => (monitorSshLogin deviceID getTsFromAuditLog t line).1) m

/-- The clock and the time-parsing library calls of `getTsFromAuditLog`:
`nowMs` is `time.Now().UnixMilli()`, `matchClassic` the `regexp.MatchString`
test for the classic stamp, and the three parsers are `time.ParseInLocation`
with `layoutClassic` (on the stamp completed with milliseconds and year) and
`time.Parse` with `layoutISO` and `layoutISOshort`; a parser gives `none` when
the call returns an error. -/
structure Clock where
  nowMs : Int
  matchClassic : String → Bool
  parseClassic : String → Option Int
  parseISO : String → Option Int
  parseISOshort : String → Option Int

/-- Go: `func getTsFromAuditLog(auditTsStr string) int64`. -/
def getTsFromAuditLog (c : Clock) (auditTsStr : String) : Int :=
  if auditTsStr = "" then c.nowMs
  else
    match (if c.matchClassic auditTsStr then c.parseClassic auditTsStr else none) with
    | some parsedTime => parsedTime
    | none =>
      match c.parseISO auditTsStr with
      | some parsedTime => parsedTime
      | none =>
        match c.parseISOshort auditTsStr with
        | some parsedTime => parsedTime
        | none => c.nowMs

/-! ## The session mutex in the packet loop -/

/-- Body of the packet loop of `snifferSshTraffic` with `ss.mutex`: `locked`
tells whether the mutex is held when the record arrives. The result is `none`
when `ss.mutex.Lock()` is reached while the mutex is held (the call does not
return), otherwise the table and the state of the mutex when the loop proceeds
to the next record. A record with an empty key is skipped before `Lock`; the
two counting branches fall through to `Unlock`; the branch for unknown traffic
leaves the body with `continue`. -/
def snifferLoopBody (TCPPortNames : Nat → Option String) (localIpInIface : String)
    (SshListenPort : Nat) (locked : Bool) (m : SessionTable) (pkt : Packet) :
    Option (SessionTable × Bool) :=
  let sessionKey := getKeyMap TCPPortNames localIpInIface SshListenPort pkt
  if sessionKey = "" then some (m, locked)
  else if locked then none
  else
    let m2 := snifferSshTraffic TCPPortNames localIpInIface SshListenPort m pkt
    if pkt.SrcPort = SshListenPort then some (m2, false)
    else if pkt.DstPort = SshListenPort then some (m2, false)
    else some (m2, true)

/-! ## Predicates and helpers of the statements -/

/-- A line with a time stamp that the read loop handles as a failed login
attempt from `ip:port`. -/
def IsFailedLoginFrom (line : LogLine) (ip port : String) : Prop :=
  2 ≤ line.reTime.length ∧ line.reConnection.length ≠ 5 ∧ line.reFailedLogin.length = 6 ∧
    line.reFailedLogin.getD 4 "" = ip ∧ line.reFailedLogin.getD 5 "" = port

/-- A line with a time stamp that the read loop handles as a successful login of
`user` from `ip:port`. -/
def IsSuccessfulLoginFrom (line : LogLine) (user ip port : String) : Prop :=
  2 ≤ line.reTime.length ∧ line.reConnection.length ≠ 5 ∧ line.reFailedLogin.length ≠ 6 ∧
    line.reFinalFailedLogin.length ≠ 4 ∧ line.reMaxAuthExceeded.length ≠ 4 ∧
    line.reSuccessfulLogin.length = 4 ∧ line.reSuccessfulLogin.getD 1 "" = user ∧
    line.reSuccessfulLogin.getD 2 "" = ip ∧ line.reSuccessfulLogin.getD 3 "" = port

/-- Every entry that a lookup can return is stored under the key built from
its own `ip` and `port`. -/
def KeysMatch (m : SessionTable) : Prop :=
  ∀ k s, m.get k = some s → k = sprintfKey s.ip s.port

/-- An entry with both byte counters reset, as the flush leaves it. -/
def resetCounters (s : sshSession) : sshSession :=
  { s with bytesRecv := 0, bytesSent := 0 }

/-- What one flush leaves of an entry stored under its own key: nothing when it
is flagged `delete`, the entry with both counters reset otherwise. -/
def afterFlush (s : sshSession) : Option sshSession :=
  if s.delete then none else some (resetCounters s)

/-! ## Inputs used in the evaluations below -/

/-- The entry the sniffer counts on: the stored one, or the new one it inserts
when the key is absent (`ip` and `port` cut out of the key, counters zero). -/
def sessionOrNew (m : SessionTable) (sessionKey : String) : sshSession :=
  match m.get sessionKey with
  | some s => s
  | none => { ip := (Split sessionKey).getD 0 "", port := (Split sessionKey).getD 1 "" }

/-- A step from `m` to `m2` keeps every key and never clears a `delete` flag. -/
def KeepsEntries (m m2 : SessionTable) : Prop :=
  ∀ k s, m.get k = some s → ∃ t, m2.get k = some t ∧ (s.delete = true → t.delete = true)

/-- A table with one closing session that still has 120 received bytes. -/
def closingTable : SessionTable :=
  [("10.0.0.5:51000",
    { ip := "10.0.0.5", port := "51000", user := "alice", bytesRecv := 120, delete := true })]

/-- A table with one closed session without traffic and one live session. -/
def idleTable : SessionTable :=
  [("10.0.0.5:51000", { ip := "10.0.0.5", port := "51000", user := "alice", delete := true }),
   ("10.0.0.7:40022", { ip := "10.0.0.7", port := "40022", user := "bob", bytesSent := 64 })]

/-- A table with one live session that only received bytes. -/
def rxOnlyTable : SessionTable :=
  [("10.0.0.5:51000", { ip := "10.0.0.5", port := "51000", user := "alice", bytesRecv := 120 })]

/-- What the expressions return on the line
`Jun 1 10:00:00 host sshd[1]: Failed password for root from 10.0.0.5 port 22 ssh2`. -/
def failedLoginLine : LogLine :=
  { reTime := ["Jun 1 10:00:00", "Jun 1 10:00:00"],
    reFailedLogin :=
      ["Failed password for root from 10.0.0.5 port 22", "password", "", "root", "10.0.0.5", "22"] }

/-- What the expressions return on the line
`Jun 1 10:05:00 host sshd[1]: Disconnected from user alice 10.0.0.5 port 51000`. -/
def disconnectedLine : LogLine :=
  { reTime := ["Jun 1 10:05:00", "Jun 1 10:05:00"],
    reDisconnected :=
      ["Disconnected from user alice 10.0.0.5 port 51000", "alice", "10.0.0.5", "51000"] }

/-- What the expressions return on the line
`Jun 1 10:00:00 host sshd[1]: Connection from 10.0.0.5 port 51000 on 10.0.0.9 port 22`. -/
def connectionLine : LogLine :=
  { reTime := ["Jun 1 10:00:00", "Jun 1 10:00:00"],
    reConnection :=
      ["Connection from 10.0.0.5 port 51000 on 10.0.0.9 port 22", "10.0.0.5", "51000",
        "10.0.0.9", "22"] }

/-- What the expressions return on the line
`Jun 1 10:00:02 host sshd[1]: Accepted password for alice from 10.0.0.5 port 51000`. -/
def acceptedLine : LogLine :=
  { reTime := ["Jun 1 10:00:02", "Jun 1 10:00:02"],
    reSuccessfulLogin :=
      ["Accepted password for alice from 10.0.0.5 port 51000", "alice", "10.0.0.5", "51000"] }

/-- What the expressions return on the line
`Jun 1 10:00:01 host sshd[1]: Failed password for root from 10.0.0.5 port 51000 ssh2`. -/
def failedRootLine : LogLine :=
  { reTime := ["Jun 1 10:00:01", "Jun 1 10:00:01"],
    reFailedLogin :=
      ["Failed password for root from 10.0.0.5 port 51000", "password", "", "root", "10.0.0.5",
        "51000"] }

/-- What the expressions return on the line
`Jun 1 10:06:00 host sshd[1]: Connection closed by 10.0.0.5 port 51000`. -/
def closedLine : LogLine :=
  { reTime := ["Jun 1 10:06:00", "Jun 1 10:06:00"],
    reClosed := ["Connection closed by 10.0.0.5 port 51000", "10.0.0.5", "51000"] }

/-- What the expressions return on the line
`Failed password for root from 10.0.0.5 port 51000 ssh2`, which has no time stamp. -/
def unstampedFailedLine : LogLine :=
  { reFailedLogin :=
      ["Failed password for root from 10.0.0.5 port 51000", "password", "", "root", "10.0.0.5",
        "51000"] }

/-- A clock at 1717236000000 ms on which every parser fails. -/
def failingClock : Clock :=
  { nowMs := 1717236000000, matchClassic := fun _ => true, parseClassic := fun _ => none,
    parseISO := fun _ => none, parseISOshort := fun _ => none }

/-- A table with one live session of another remote endpoint. -/
def bobTable : SessionTable :=
  [("10.0.0.7:40022", { ip := "10.0.0.7", port := "40022", user := "bob", bytesSent := 64 })]

/-- What the expressions return on the line
`Accepted password for alice from 10.0.0.5 port 51000 ssh2`, which has no time stamp. -/
def unstampedAcceptedLine : LogLine :=
  { reSuccessfulLogin :=
      ["Accepted password for alice from 10.0.0.5 port 51000", "alice", "10.0.0.5", "51000"] }

/-- What the expressions return on the line
`Connection closed by 10.0.0.5 port 51000`, which has no time stamp. -/
def unstampedClosedLine : LogLine :=
  { reClosed := ["Connection closed by 10.0.0.5 port 51000", "10.0.0.5", "51000"] }

/-- What the expressions return on the line
`Jun 1 25:00:00 host sshd[1]: Failed password for root from 10.0.0.5 port 51000 ssh2`,
whose stamp has the classic form but an hour out of range. -/
def badStampFailedLine : LogLine :=
  { reTime := ["Jun 1 25:00:00", "Jun 1 25:00:00"],
    reFailedLogin :=
      ["Failed password for root from 10.0.0.5 port 51000", "password", "", "root", "10.0.0.5",
        "51000"] }

/-- A clock reading 10:10:00.000 UTC on 1 June 2024 (1717236600000 ms), with what
the time library returns on the stamps used below: the classic stamps of that day
parse, in the current year and with the milliseconds of `now`, to their Unix
milliseconds; `Jun 1 25:00:00` has the classic form but does not parse; none of
them is an ISO stamp. -/
def juneClock : Clock :=
  { nowMs := 1717236600000,
    matchClassic := fun s =>
      decide (s ∈ ["Jun 1 10:00:00", "Jun 1 10:00:01", "Jun 1 10:00:02", "Jun 1 10:05:00",
        "Jun 1 10:06:00", "Jun 1 25:00:00"]),
    parseClassic := fun s =>
      if s = "Jun 1 10:00:00" then some 1717236000000
      else if s = "Jun 1 10:00:01" then some 1717236001000
      else if s = "Jun 1 10:00:02" then some 1717236002000
      else if s = "Jun 1 10:05:00" then some 1717236300000
      else if s = "Jun 1 10:06:00" then some 1717236360000
      else none,
    parseISO := fun _ => none,
    parseISOshort := fun _ => none }

/-- A port-name table without any name. -/
def noPortNames : Nat → Option String :=
  fun _ => none

/-- The one entry of the port-name table that the source documents: `22(ssh)`. -/
def sshPortName : Nat → Option String :=
  fun p => if p = 22 then some "ssh" else none

/-! ## The end-to-end scenario -/

/-- Scenario, step 1: the connection line on the empty table. -/
def scenarioConnection : SessionTable × List TelegrafEvent :=
  monitorSshLogin "dev" (getTsFromAuditLog failingClock) [] connectionLine

/-- Scenario, step 2: the accepted-password line. -/
def scenarioLogin : SessionTable × List TelegrafEvent :=
  monitorSshLogin "dev" (getTsFromAuditLog failingClock) scenarioConnection.1 acceptedLine

/-- Scenario, step 3: the record 10.0.0.5:51000 → 10.0.0.9:22 of length 120, with
local address 10.0.0.9 and listening port 22. -/
def scenarioRecord : SessionTable :=
  snifferSshTraffic noPortNames "10.0.0.9" 22 scenarioLogin.1
    ⟨"10.0.0.5", "10.0.0.9", 51000, 22, 120⟩

/-- Scenario, step 4: the next flush. -/
def scenarioFlush : SessionTable × List TelegrafEvent :=
  checkBytesStatistics "dev" 1717236010000 scenarioRecord

/-- Scenario, step 5: the disconnect line. -/
def scenarioDisconnect : SessionTable × List TelegrafEvent :=
  monitorSshLogin "dev" (getTsFromAuditLog failingClock) scenarioFlush.1 disconnectedLine

/-- Scenario, step 6: the following flush. -/
def scenarioLastFlush : SessionTable × List TelegrafEvent :=
  checkBytesStatistics "dev" 1717236310000 scenarioDisconnect.1

/-! ## Idle back-off of the log tailer

The delay is computed in `float64`. A `float64` value is taken as the real number
it stands for and the rounding of the floating-point operations is not modelled.
-/

/-- Go: `MONITOR_SSH_LOGIN_BASE_TIME`, 20 ms as a `time.Duration` (nanoseconds). -/
def MONITOR_SSH_LOGIN_BASE_TIME : Int := 20 * 1000000

/-- Go: `MONITOR_SSH_LOGIN_LIMIT_TIME`, 5 s as a `time.Duration` (nanoseconds). -/
def MONITOR_SSH_LOGIN_LIMIT_TIME : Int := 5 * 1000000000

/-- Go: `math.Log1p(x)`, by its documentation the natural logarithm of `1 + x`. -/
noncomputable def Log1p (x : ℝ) : ℝ :=
  Real.log (1 + x)

/-- Go: `float64(MONITOR_SSH_LOGIN_BASE_TIME) * math.Log1p(float64(noEventCount)*factor)`
with `factor := 5.0`; `noEventCount` is the idle count after `noEventCount++`. -/
noncomputable def unclampedDelay (noEventCount : Nat) : ℝ :=
  (MONITOR_SSH_LOGIN_BASE_TIME : ℝ) * Log1p ((noEventCount : ℝ) * 5)

/-- Go: `delayFloat` after the two `if` statements that clamp it. -/
noncomputable def delayFloat (noEventCount : Nat) : ℝ :=
  let delayFloat := unclampedDelay noEventCount
  let delayFloat :=
    if delayFloat < (MONITOR_SSH_LOGIN_BASE_TIME : ℝ) then (MONITOR_SSH_LOGIN_BASE_TIME : ℝ)
    else delayFloat
  if delayFloat > (MONITOR_SSH_LOGIN_LIMIT_TIME : ℝ) then (MONITOR_SSH_LOGIN_LIMIT_TIME : ℝ)
  else delayFloat

/-- Go: `time.Duration(delayFloat)`, the delay handed to `time.Sleep`; the
conversion of a float to an integer truncates toward zero. -/
noncomputable def backoffDelay (noEventCount : Nat) : Int :=
  if 0 ≤ delayFloat noEventCount then ⌊delayFloat noEventCount⌋
  else ⌈delayFloat noEventCount⌉

/-! ## Runs of the system on the session table -/

/-- Go: the loop of `getActiveSSHSessions`; `lineMatches` holds, for each line of
the `netstat` output, what `sshdRegex.FindStringSubmatch` returns on it. -/
def getActiveSSHSessions (lineMatches : List (List String)) : SessionTable :=
  lineMatches.foldl
    (fun sessions ms =>
      if ms.length = 6 then
        let ip := ms.getD 3 ""
        let port := ms.getD 4 ""
        let user := ms.getD 5 ""
        sessions.set (sprintfKey ip port) { user := user, ip := ip, port := port }
      else sessions)
    []

/-- One step of the system on the session table: a line read by the log tailer,
a record captured by the sniffer, or a flush cycle at time `now`. -/
inductive Step where
  | logLine (line : LogLine)
  | record (pkt : Packet)
  | flush (now : Int)

/-- The table after one step. -/
def Step.run (deviceID : String) (getTsFromAuditLog : String → Int)
    (TCPPortNames : Nat → Option String) (localIpInIface : String) (SshListenPort : Nat)
    (m : SessionTable) : Step → SessionTable
  | Step.logLine line => (monitorSshLogin deviceID getTsFromAuditLog m line).1
  | Step.record pkt => snifferSshTraffic TCPPortNames localIpInIface SshListenPort m pkt
  | Step.flush now => (checkBytesStatistics deviceID now m).1

/-- The table after a sequence of steps, in any interleaving of the three tasks. -/
def runSteps (deviceID : String) (getTsFromAuditLog : String → Int)
    (TCPPortNames : Nat → Option String) (localIpInIface : String) (SshListenPort : Nat)
    (m : SessionTable) (steps : List Step) : SessionTable :=
  steps.foldl (Step.run deviceID getTsFromAuditLog TCPPortNames localIpInIface SshListenPort) m

/-- A string without a colon. -/
def ColonFree (s : String) : Prop :=
  ':' ∉ s.data

/-- The inputs of a step have the shape the libraries give them: the address and
the port that `reFailedLogin` captures (`\d+\.\d+\.\d+\.\d+` and `\d+`) and the
dotted rendering of the two IPv4 addresses of a record hold no colon. -/
def Step.InputShape : Step → Prop
  | Step.logLine line =>
    line.reFailedLogin.length = 6 →
      ColonFree (line.reFailedLogin.getD 4 "") ∧ ColonFree (line.reFailedLogin.getD 5 "")
  | Step.record pkt => ColonFree pkt.SrcIP ∧ ColonFree pkt.DstIP
  | Step.flush _ => True

/-- No well-known port name holds a colon. -/
def PortNamesColonFree (TCPPortNames : Nat → Option String) : Prop :=
  ∀ p name, TCPPortNames p = some name → ColonFree name

/-- What `sshdRegex` returns on the `netstat` line
`tcp 0 0 10.0.0.9:22 10.0.0.5:51000 ESTABLISHED 811/sshd: alice`. -/
def netstatAlice : List String :=
  ["tcp 0 0 10.0.0.9:22 10.0.0.5:51000 ESTABLISHED 811/sshd: alice", "10.0.0.9", "22",
    "10.0.0.5", "51000", "alice"]

end ssh_guard

/-! ## Output plugin: grouping metrics into fillers

Shallow embedding of `checkFiller` and of the grouping loop of `OGReport.Write`
in `plugins/outputs/og_report/og_report.go`. A `[]*Filler` is a list of fillers;
writing `f.metrics` through the pointer replaces that filler where it stands.
-/

namespace og_report

/-- Go: `type Filler struct`; `Metric` stands for `telegraf.Metric`. -/
structure Filler (Metric : Type) where
  metrics : List Metric
  deviceIdInBody : String
  pathInBody : List String
  deviceIdInUri : String
  modelName : String
  includeFieldNotMatched : Bool
  deriving DecidableEq, Repr

/-- Go: `strings.Join(elems, sep)`. -/
def Join : List String → String → String
  | [], _ => ""
  | [a], _ => a
  | a :: b :: rest, sep => a ++ sep ++ Join (b :: rest) sep

/-- Go: the condition of the `if` in `checkFiller`:
`f.deviceIdInUri == newFiller.deviceIdInUri && strings.Join(f.pathInBody, "-") ==
strings.Join(newFiller.pathInBody, "-") && f.deviceIdInBody == newFiller.deviceIdInBody`. -/
def sameFiller {Metric : Type} (f newFiller : Filler Metric) : Prop :=
  f.deviceIdInUri = newFiller.deviceIdInUri ∧
    Join f.pathInBody "-" = Join newFiller.pathInBody "-" ∧
    f.deviceIdInBody = newFiller.deviceIdInBody

instance sameFillerDecidable {Metric : Type} (f newFiller : Filler Metric) :
    Decidable (sameFiller f newFiller) := by
  unfold sameFiller
  infer_instance

/-- Go: `func checkFiller(fillers []*Filler, newFiller Filler) []*Filler`. -/
def checkFiller {Metric : Type} : List (Filler Metric) → Filler Metric → List (Filler Metric)
  | [], newFiller => [newFiller]
  | f :: rest, newFiller =>
    if sameFiller f newFiller then
      { f with metrics := f.metrics ++ newFiller.metrics } :: rest
    else f :: checkFiller rest newFiller

/-- The part of a `telegraf.Metric` that `Write` reads when it groups: `Name()`
and `Tags()`. -/
structure Metric where
  Name : String
  Tags : List (String × String)
  deriving DecidableEq, Repr

/-- The options of `OGReport` that `Write` reads when it groups. -/
structure OGReport where
  DeviceInPathTagName : String
  DeviceIdBodyTagName : String
  DeviceInUriTagName : String
  IncludeFieldNotMatched : Bool
  ModelName : String

/-- Go: the body of the first loop of `Write` up to the literal `newFiller`. -/
def newFillerOf (o : OGReport) (metric : Metric) : Filler Metric :=
  let deviceIdUri0 := metric.Name
  let deviceIdUri :=
    if o.DeviceInUriTagName ≠ "" then
      match metric.Tags.lookup o.DeviceInUriTagName with
      | some tagValue => tagValue
      | none => deviceIdUri0
    else deviceIdUri0
  let body : String × String :=
    if o.DeviceIdBodyTagName ≠ "" then
      match metric.Tags.lookup o.DeviceIdBodyTagName with
      | some tagValue => (tagValue, deviceIdUri)
      | none => ("", "")
    else ("", "")
  let deviceIdInBody := body.1
  let deviceIdPath :=
    if o.DeviceInPathTagName ≠ "" then
      match metric.Tags.lookup o.DeviceInPathTagName with
      | some tagValue => tagValue
      | none => body.2
    else body.2
  let pathInBody := if deviceIdPath ≠ "" then [deviceIdPath] else []
  { metrics := [metric], deviceIdInBody := deviceIdInBody, pathInBody := pathInBody,
    deviceIdInUri := deviceIdUri, modelName := o.ModelName,
    includeFieldNotMatched := o.IncludeFieldNotMatched }

/-- Go: the first loop of `Write`: the fillers built from a batch of metrics. -/
def groupMetrics (o : OGReport) (metrics : List Metric) : List (Filler Metric) :=
  metrics.foldl (fun fillers metric => checkFiller fillers (newFillerOf o metric)) []

/-- A filler of device `dev1` whose path has the two elements `a` and `b`. -/
def splitPathFiller : Filler Nat :=
  { metrics := [1], deviceIdInBody := "body", pathInBody := ["a", "b"],
    deviceIdInUri := "dev1", modelName := "m", includeFieldNotMatched := false }

/-- A filler of device `dev1` whose path has the single element `a-b`. -/
def dashPathFiller : Filler Nat :=
  { metrics := [2], deviceIdInBody := "body", pathInBody := ["a-b"],
    deviceIdInUri := "dev1", modelName := "m", includeFieldNotMatched := false }

/-- A filler of another device. -/
def otherFiller : Filler Nat :=
  { metrics := [3], deviceIdInBody := "body", pathInBody := ["a-b"],
    deviceIdInUri := "dev2", modelName := "m", includeFieldNotMatched := false }

end og_report

namespace ssh_guard

/-! ## Lemmas on the session table -/

theorem get_set (m : SessionTable) (k k' : String) (v : sshSession) :
    (m.set k v).get k' = if k = k' then some v else m.get k' := by
  induction m with
  | nil => simp [SessionTable.set, SessionTable.get]
  | cons e rest ih =>
    obtain ⟨a, w⟩ := e
    by_cases h : a = k
    · subst h
      by_cases h2 : a = k' <;> simp [SessionTable.set, SessionTable.get, h2]
    · by_cases h2 : a = k'
      · subst h2
        simp [SessionTable.set, SessionTable.get, h, Ne.symm h]
      · simp [SessionTable.set, SessionTable.get, h, h2, ih]

theorem get_delete (m : SessionTable) (k k' : String) :
    (m.delete k).get k' = if k = k' then none else m.get k' := by
  induction m with
  | nil => simp [SessionTable.delete, SessionTable.get]
  | cons e rest ih =>
    obtain ⟨a, w⟩ := e
    by_cases h : a = k
    · subst h
      by_cases h2 : a = k'
      · subst h2
        simpa [SessionTable.delete] using ih
      · simp [SessionTable.delete, SessionTable.get, h2, ih]
    · by_cases h2 : a = k'
      · subst h2
        simp [SessionTable.delete, SessionTable.get, h, Ne.symm h]
      · simp [SessionTable.delete, SessionTable.get, h, h2, ih]

theorem mem_keys_iff (m : SessionTable) (k : String) :
    k ∈ m.keys ↔ ∃ s, m.get k = some s := by
  induction m with
  | nil => simp [SessionTable.keys, SessionTable.get]
  | cons e rest ih =>
    obtain ⟨a, w⟩ := e
    simp only [SessionTable.keys] at ih
    by_cases h : a = k
    · simp [SessionTable.keys, SessionTable.get, h]
    · simp [SessionTable.keys, SessionTable.get, h, Ne.symm h, ih]

theorem resetCounters_of_zero (s : sshSession) (hr : s.bytesRecv = 0) (hs : s.bytesSent = 0) :
    resetCounters s = s := by
  cases s
  simp_all [resetCounters]

/-! ## Lemmas on the flush -/

theorem flushSession_get (d : String) (now : Int) (st : SessionTable × List TelegrafEvent)
    (k0 k : String) (hk : ∀ s, st.1.get k0 = some s → k0 = sprintfKey s.ip s.port) :
    (flushSession d now st k0).1.get k =
      if k0 = k then (st.1.get k0).bind afterFlush else st.1.get k := by
  unfold flushSession
  cases h : st.1.get k0 with
  | none =>
    by_cases hkk : k0 = k
    · subst hkk
      simp [h]
    · simp [hkk]
  | some s =>
    have hs := hk s h
    by_cases hz : s.bytesRecv = 0 ∧ s.bytesSent = 0
    · by_cases hd : s.delete = true
      · simp [hz, hd, get_delete, ← hs, afterFlush]
      · by_cases hkk : k0 = k
        · subst hkk
          simp [hz, hd, afterFlush, resetCounters_of_zero s hz.1 hz.2, h]
        · simp [hz, hd, hkk]
    · by_cases hd : s.delete = true
      · simp [hz, hd, get_delete, ← hs, afterFlush]
      · simp [hz, hd, get_set, afterFlush, resetCounters]

theorem flushSession_keysMatch (d : String) (now : Int) (st : SessionTable × List TelegrafEvent)
    (k0 : String) (hm : KeysMatch st.1) : KeysMatch (flushSession d now st k0).1 := by
  intro k s hks
  rw [flushSession_get d now st k0 k (fun s h => hm k0 s h)] at hks
  by_cases hkk : k0 = k
  · subst hkk
    cases h : st.1.get k0 with
    | none => simp [h] at hks
    | some s0 =>
      have h0 := hm k0 s0 h
      by_cases hd : s0.delete = true
      · simp [h, afterFlush, hd] at hks
      · simp [h, afterFlush, hd] at hks
        subst hks
        simpa [resetCounters] using h0
  · simp [hkk] at hks
    exact hm k s hks

theorem afterFlush_idem (s : sshSession) :
    (afterFlush s).bind afterFlush = afterFlush s := by
  by_cases hd : s.delete = true <;> simp [afterFlush, hd, resetCounters]

theorem flushFold_get (d : String) (now : Int) (ks : List String) :
    ∀ (st : SessionTable × List TelegrafEvent), KeysMatch st.1 → ∀ k,
      (ks.foldl (flushSession d now) st).1.get k =
        if k ∈ ks then (st.1.get k).bind afterFlush else st.1.get k := by
  induction ks with
  | nil => intro st _ k; simp
  | cons k0 rest ih =>
    intro st hm k
    rw [List.foldl_cons, ih _ (flushSession_keysMatch d now st k0 hm) k,
      flushSession_get d now st k0 k (fun s h => hm k0 s h)]
    by_cases hkk : k0 = k
    · subst hkk
      by_cases hr : k0 ∈ rest
      · cases h : st.1.get k0 with
        | none => simp [hr]
        | some s => simp [hr, afterFlush_idem]
      · simp [hr]
    · have hne : ¬ k = k0 := fun h => hkk h.symm
      simp [hkk, hne]

theorem checkBytesStatistics_get (d : String) (now : Int) (m : SessionTable)
    (hm : KeysMatch m) (k : String) :
    (checkBytesStatistics d now m).1.get k = (m.get k).bind afterFlush := by
  unfold checkBytesStatistics
  rw [flushFold_get d now m.keys (m, []) hm k]
  by_cases hk : k ∈ m.keys
  · simp [hk]
  · have hnone : m.get k = none := by
      cases h : m.get k with
      | none => rfl
      | some s => exact absurd ((mem_keys_iff m k).2 ⟨s, h⟩) hk
    simp [hk, hnone]

theorem flushSession_events (d : String) (now : Int) (st : SessionTable × List TelegrafEvent)
    (k0 : String) :
    (flushSession d now st k0).2 =
      st.2 ++ (match st.1.get k0 with
        | none => []
        | some s =>
          if s.bytesRecv = 0 ∧ s.bytesSent = 0 then []
          else [(rxMetric now s).TelegrafNormalize d, (txMetric now s).TelegrafNormalize d]) := by
  unfold flushSession
  cases h : st.1.get k0 with
  | none => simp
  | some s =>
    by_cases hz : s.bytesRecv = 0 ∧ s.bytesSent = 0
    · by_cases hd : s.delete = true <;> simp [hz, hd]
    · by_cases hd : s.delete = true <;> simp [hz, hd]

theorem flushFold_events_mono (d : String) (now : Int) (ks : List String) :
    ∀ (st : SessionTable × List TelegrafEvent) (e : TelegrafEvent), e ∈ st.2 →
      e ∈ (ks.foldl (flushSession d now) st).2 := by
  induction ks with
  | nil => intro st e he; simpa using he
  | cons k0 rest ih =>
    intro st e he
    rw [List.foldl_cons]
    apply ih
    rw [flushSession_events]
    exact List.mem_append_left _ he

theorem flushFold_emits (d : String) (now : Int) (ks : List String) :
    ∀ (st : SessionTable × List TelegrafEvent), KeysMatch st.1 → ∀ k s, k ∈ ks →
      st.1.get k = some s → ¬ (s.bytesRecv = 0 ∧ s.bytesSent = 0) →
      (rxMetric now s).TelegrafNormalize d ∈ (ks.foldl (flushSession d now) st).2 ∧
      (txMetric now s).TelegrafNormalize d ∈ (ks.foldl (flushSession d now) st).2 := by
  induction ks with
  | nil => intro st _ k s hk; simp at hk
  | cons k0 rest ih =>
    intro st hm k s hk hget hz
    rw [List.foldl_cons]
    by_cases hkk : k0 = k
    · subst hkk
      constructor
      · apply flushFold_events_mono
        rw [flushSession_events]
        simp [hget, hz]
      · apply flushFold_events_mono
        rw [flushSession_events]
        simp [hget, hz]
    · have hk2 : k ∈ rest := by
        rcases List.mem_cons.1 hk with h | h
        · exact absurd h.symm hkk
        · exact h
      apply ih _ (flushSession_keysMatch d now st k0 hm) k s hk2 _ hz
      rw [flushSession_get d now st k0 k (fun s h => hm k0 s h)]
      simp [hkk, hget]

theorem flushFold_origin (d : String) (now : Int) (ks : List String) :
    ∀ (st : SessionTable × List TelegrafEvent), KeysMatch st.1 → ∀ e,
      e ∈ (ks.foldl (flushSession d now) st).2 →
      e ∈ st.2 ∨ ∃ k s, st.1.get k = some s ∧ ¬ (s.bytesRecv = 0 ∧ s.bytesSent = 0) ∧
        (e = (rxMetric now s).TelegrafNormalize d ∨ e = (txMetric now s).TelegrafNormalize d) := by
  induction ks with
  | nil => intro st _ e he; left; simpa using he
  | cons k0 rest ih =>
    intro st hm e he
    rw [List.foldl_cons] at he
    rcases ih _ (flushSession_keysMatch d now st k0 hm) e he with h | ⟨k, s, hget, hz, hev⟩
    · rw [flushSession_events] at h
      rcases List.mem_append.1 h with h | h
      · exact Or.inl h
      · right
        cases hg : st.1.get k0 with
        | none => simp [hg] at h
        | some s0 =>
          by_cases hz : s0.bytesRecv = 0 ∧ s0.bytesSent = 0
          · simp [hg, hz] at h
          · refine ⟨k0, s0, hg, hz, ?_⟩
            simpa [hg, hz] using h
    · right
      rw [flushSession_get d now st k0 k (fun s h => hm k0 s h)] at hget
      by_cases hkk : k0 = k
      · subst hkk
        cases hg : st.1.get k0 with
        | none => simp [hg] at hget
        | some s0 =>
          by_cases hd : s0.delete = true
          · simp [hg, afterFlush, hd] at hget
          · simp [hg, afterFlush, hd] at hget
            subst hget
            exact absurd ⟨rfl, rfl⟩ hz
      · simp [hkk] at hget
        exact ⟨k, s, hget, hz, hev⟩

/-- An entry found after folding the flush body over any keys is an entry of the
starting table, unchanged or with its counters reset. No assumption on keys. -/
theorem flushSession_source (d : String) (now : Int) (st : SessionTable × List TelegrafEvent)
    (k0 k : String) (t : sshSession) (h : (flushSession d now st k0).1.get k = some t) :
    ∃ s, st.1.get k = some s ∧ (t = s ∨ t = resetCounters s) := by
  unfold flushSession at h
  cases hg : st.1.get k0 with
  | none =>
    simp [hg] at h
    exact ⟨t, h, Or.inl rfl⟩
  | some s0 =>
    simp only [hg] at h
    have hdel : ∀ key, (st.1.delete key).get k = some t → st.1.get k = some t := by
      intro key hd
      rw [get_delete] at hd
      by_cases hkk : key = k
      · simp [hkk] at hd
      · simpa [hkk] using hd
    have hset : (st.1.set k0 (resetCounters s0)).get k = some t →
        ∃ s, st.1.get k = some s ∧ (t = s ∨ t = resetCounters s) := by
      intro hs
      rw [get_set] at hs
      by_cases hkk : k0 = k
      · subst hkk
        simp at hs
        exact ⟨s0, hg, Or.inr hs.symm⟩
      · simp [hkk] at hs
        exact ⟨t, hs, Or.inl rfl⟩
    by_cases hz : s0.bytesRecv = 0 ∧ s0.bytesSent = 0
    · by_cases hd : s0.delete = true
      · simp [hz, hd] at h
        exact ⟨t, hdel _ h, Or.inl rfl⟩
      · simp [hz, hd] at h
        exact ⟨t, h, Or.inl rfl⟩
    · by_cases hd : s0.delete = true
      · simp [hz, hd] at h
        exact ⟨t, hdel _ h, Or.inl rfl⟩
      · rw [if_neg hz, if_neg hd] at h
        exact hset h

theorem flushFold_source (d : String) (now : Int) (ks : List String) :
    ∀ (st : SessionTable × List TelegrafEvent) (k : String) (t : sshSession),
      (ks.foldl (flushSession d now) st).1.get k = some t →
      ∃ s, st.1.get k = some s ∧ (t = s ∨ t = resetCounters s) := by
  induction ks with
  | nil => intro st k t h; exact ⟨t, by simpa using h, Or.inl rfl⟩
  | cons k0 rest ih =>
    intro st k t h
    rw [List.foldl_cons] at h
    obtain ⟨s1, h1, ht⟩ := ih _ k t h
    obtain ⟨s, hs, hs1⟩ := flushSession_source d now st k0 k s1 h1
    refine ⟨s, hs, ?_⟩
    rcases ht with rfl | rfl
    · exact hs1
    · rcases hs1 with rfl | rfl
      · exact Or.inr rfl
      · exact Or.inr (by simp [resetCounters])

theorem keysMatch_of_entries (m : SessionTable)
    (h : ∀ e ∈ m, e.1 = sprintfKey e.2.ip e.2.port) : KeysMatch m := by
  induction m with
  | nil => intro k s hk; simp [SessionTable.get] at hk
  | cons e rest ih =>
    obtain ⟨a, w⟩ := e
    intro k s hk
    by_cases hak : a = k
    · subst hak
      simp [SessionTable.get] at hk
      subst hk
      exact h (a, w) (List.mem_cons_self _ _)
    · simp [SessionTable.get, hak] at hk
      exact ih (fun e he => h e (List.mem_cons_of_mem _ he)) k s hk

theorem rx_tags (d : String) (now : Int) (s : sshSession) :
    ((rxMetric now s).TelegrafNormalize d).tag "ip" = s.ip ∧
    ((rxMetric now s).TelegrafNormalize d).tag "port" = s.port ∧
    ((rxMetric now s).TelegrafNormalize d).tag "eventType" = SSH_SESSION_RX_BYTES ∧
    ((rxMetric now s).TelegrafNormalize d).field "connbytes" = some (FieldValue.uint64 s.bytesRecv) := by
  simp [TelegrafEvent.tag, TelegrafEvent.field, sshSession.TelegrafNormalize, rxMetric,
    List.find?, SSH_SESSION_RX_BYTES]

theorem tx_tags (d : String) (now : Int) (s : sshSession) :
    ((txMetric now s).TelegrafNormalize d).tag "ip" = s.ip ∧
    ((txMetric now s).TelegrafNormalize d).tag "port" = s.port ∧
    ((txMetric now s).TelegrafNormalize d).tag "eventType" = SSH_SESSION_TX_BYTES ∧
    ((txMetric now s).TelegrafNormalize d).field "connbytes" = some (FieldValue.uint64 s.bytesSent) := by
  simp [TelegrafEvent.tag, TelegrafEvent.field, sshSession.TelegrafNormalize, txMetric,
    List.find?, SSH_SESSION_TX_BYTES, SSH_SESSION_RX_BYTES]

/-- Every event of a flush comes from an entry with a nonzero counter and
carries that entry's address, port and counter. -/
theorem flush_event_origin (d : String) (now : Int) (m : SessionTable) (hm : KeysMatch m)
    (e : TelegrafEvent) (he : e ∈ (checkBytesStatistics d now m).2) :
    ∃ s, m.get (sprintfKey (e.tag "ip") (e.tag "port")) = some s ∧
      e.tag "ip" = s.ip ∧ e.tag "port" = s.port ∧
      ¬ (s.bytesRecv = 0 ∧ s.bytesSent = 0) ∧
      ((e.tag "eventType" = SSH_SESSION_RX_BYTES ∧
          e.field "connbytes" = some (FieldValue.uint64 s.bytesRecv)) ∨
        (e.tag "eventType" = SSH_SESSION_TX_BYTES ∧
          e.field "connbytes" = some (FieldValue.uint64 s.bytesSent))) := by
  unfold checkBytesStatistics at he
  rcases flushFold_origin d now m.keys (m, []) hm e he with h | ⟨k, s, hget, hz, hev⟩
  · simp at h
  · have hk := hm k s hget
    rcases hev with rfl | rfl
    · obtain ⟨h1, h2, h3, h4⟩ := rx_tags d now s
      refine ⟨s, ?_, h1, h2, hz, Or.inl ⟨h3, h4⟩⟩
      rw [h1, h2, ← hk]
      exact hget
    · obtain ⟨h1, h2, h3, h4⟩ := tx_tags d now s
      refine ⟨s, ?_, h1, h2, hz, Or.inr ⟨h3, h4⟩⟩
      rw [h1, h2, ← hk]
      exact hget

/-! ## The flush cycle: removal and emission -/

/-- C1, as stated, fails: a session flagged `delete` that still has 120 received
bytes when the flush starts is no longer in the table after that flush. -/
theorem flush_removes_closing_session_with_traffic :
    closingTable.get "10.0.0.5:51000" =
        some { ip := "10.0.0.5", port := "51000", user := "alice", bytesRecv := 120,
               delete := true } ∧
      (checkBytesStatistics "dev" 1000 closingTable).1.get "10.0.0.5:51000" = none := by
  decide

/-- C1 (amended): in one flush cycle an entry stored under the key of its own
`ip` and `port` is removed if and only if it is flagged `delete` when the flush
starts, whatever its byte counters are. -/
theorem flush_removes_iff_delete_flag (d : String) (now : Int) (m : SessionTable)
    (hm : KeysMatch m) (k : String) (s : sshSession) (h : m.get k = some s) :
    (checkBytesStatistics d now m).1.get k = none ↔ s.delete = true := by
  rw [checkBytesStatistics_get d now m hm k, h]
  by_cases hd : s.delete = true <;> simp [afterFlush, hd]

theorem flush_removes_iff_delete_flag_witness :
    KeysMatch idleTable ∧
      idleTable.get "10.0.0.7:40022" =
        some { ip := "10.0.0.7", port := "40022", user := "bob", bytesSent := 64 } ∧
      ((checkBytesStatistics "dev" 1000 idleTable).1.get "10.0.0.7:40022" = none ↔
        false = true) :=
  ⟨keysMatch_of_entries idleTable (by decide), by decide,
    flush_removes_iff_delete_flag "dev" 1000 idleTable
      (keysMatch_of_entries idleTable (by decide)) "10.0.0.7:40022"
      { ip := "10.0.0.7", port := "40022", user := "bob", bytesSent := 64 } (by decide)⟩

/-- C2: for a session flagged `delete` with a nonzero counter when a flush
starts, that flush, the one in which the entry leaves the table, emits an rx
event with `connbytes = bytesRecv` and a tx event with `connbytes = bytesSent`,
both tagged with the session's `ip` and `port`. -/
theorem flush_emits_final_traffic (d : String) (now : Int) (m : SessionTable)
    (hm : KeysMatch m) (k : String) (s : sshSession) (h : m.get k = some s)
    (hd : s.delete = true) (hz : s.bytesRecv ≠ 0 ∨ s.bytesSent ≠ 0) :
    (∃ rx ∈ (checkBytesStatistics d now m).2,
        rx.tag "ip" = s.ip ∧ rx.tag "port" = s.port ∧
        rx.tag "eventType" = SSH_SESSION_RX_BYTES ∧
        rx.field "connbytes" = some (FieldValue.uint64 s.bytesRecv)) ∧
      (∃ tx ∈ (checkBytesStatistics d now m).2,
        tx.tag "ip" = s.ip ∧ tx.tag "port" = s.port ∧
        tx.tag "eventType" = SSH_SESSION_TX_BYTES ∧
        tx.field "connbytes" = some (FieldValue.uint64 s.bytesSent)) ∧
      (checkBytesStatistics d now m).1.get k = none := by
  have hnz : ¬ (s.bytesRecv = 0 ∧ s.bytesSent = 0) := by
    rintro ⟨h1, h2⟩
    rcases hz with h | h
    · exact h h1
    · exact h h2
  have hk : k ∈ m.keys := (mem_keys_iff m k).2 ⟨s, h⟩
  obtain ⟨hrx, htx⟩ := flushFold_emits d now m.keys (m, []) hm k s hk h hnz
  refine ⟨⟨_, hrx, rx_tags d now s⟩, ⟨_, htx, tx_tags d now s⟩, ?_⟩
  rw [checkBytesStatistics_get d now m hm k, h]
  simp [afterFlush, hd]

theorem flush_emits_final_traffic_witness :
    (∃ rx ∈ (checkBytesStatistics "dev" 1000 closingTable).2,
        rx.tag "ip" = "10.0.0.5" ∧ rx.tag "port" = "51000" ∧
        rx.tag "eventType" = SSH_SESSION_RX_BYTES ∧
        rx.field "connbytes" = some (FieldValue.uint64 120)) ∧
      (∃ tx ∈ (checkBytesStatistics "dev" 1000 closingTable).2,
        tx.tag "ip" = "10.0.0.5" ∧ tx.tag "port" = "51000" ∧
        tx.tag "eventType" = SSH_SESSION_TX_BYTES ∧
        tx.field "connbytes" = some (FieldValue.uint64 0)) ∧
      (checkBytesStatistics "dev" 1000 closingTable).1.get "10.0.0.5:51000" = none :=
  flush_emits_final_traffic "dev" 1000 closingTable
    (keysMatch_of_entries closingTable (by decide)) "10.0.0.5:51000"
    { ip := "10.0.0.5", port := "51000", user := "alice", bytesRecv := 120, delete := true }
    (by decide) rfl (Or.inl (by decide))

/-- C3: for a session flagged `delete` with both counters zero when a flush
starts, the table after the flush has no entry under that session's key and no
event of the flush carries that session's `ip` and `port`. -/
theorem flush_drops_idle_closing_session (d : String) (now : Int) (m : SessionTable)
    (hm : KeysMatch m) (k : String) (s : sshSession) (h : m.get k = some s)
    (hd : s.delete = true) (hr : s.bytesRecv = 0) (hs : s.bytesSent = 0) :
    (checkBytesStatistics d now m).1.get k = none ∧
      ∀ e ∈ (checkBytesStatistics d now m).2, ¬ (e.tag "ip" = s.ip ∧ e.tag "port" = s.port) := by
  constructor
  · rw [checkBytesStatistics_get d now m hm k, h]
    simp [afterFlush, hd]
  · rintro e he ⟨hip, hport⟩
    obtain ⟨s1, hget, -, -, hz, -⟩ := flush_event_origin d now m hm e he
    rw [hip, hport, ← hm k s h, h] at hget
    cases hget
    exact hz ⟨hr, hs⟩

theorem flush_drops_idle_closing_session_witness :
    (checkBytesStatistics "dev" 1000 idleTable).1.get "10.0.0.5:51000" = none ∧
      ∀ e ∈ (checkBytesStatistics "dev" 1000 idleTable).2,
        ¬ (e.tag "ip" = "10.0.0.5" ∧ e.tag "port" = "51000") :=
  flush_drops_idle_closing_session "dev" 1000 idleTable
    (keysMatch_of_entries idleTable (by decide)) "10.0.0.5:51000"
    { ip := "10.0.0.5", port := "51000", user := "alice", delete := true }
    (by decide) rfl rfl rfl

/-- C7, as stated, fails: a session with 120 received and 0 sent bytes makes the
flush emit a tx event with `connbytes = 0`. -/
theorem flush_emits_zero_byte_event :
    rxOnlyTable.get "10.0.0.5:51000" =
        some { ip := "10.0.0.5", port := "51000", user := "alice", bytesRecv := 120 } ∧
      ∃ e ∈ (checkBytesStatistics "dev" 1000 rxOnlyTable).2,
        e.tag "ip" = "10.0.0.5" ∧ e.tag "port" = "51000" ∧
        e.tag "eventType" = "ssh_session_tx_bytes" ∧
        e.field "connbytes" = some (FieldValue.uint64 0) := by
  decide

/-- C7 (amended): in a flush, for every session stored under the key of its own
`ip` and `port`, an rx event and a tx event are emitted for it if and only if at
least one of its two counters is nonzero; every rx event for it carries
`connbytes = bytesRecv` and every tx event `connbytes = bytesSent`, so an event
with `connbytes = 0` is emitted for the direction whose counter is zero. -/
theorem flush_emits_both_iff_some_counter_nonzero (d : String) (now : Int) (m : SessionTable)
    (hm : KeysMatch m) (k : String) (s : sshSession) (h : m.get k = some s) :
    ((∃ e ∈ (checkBytesStatistics d now m).2, e.tag "ip" = s.ip ∧ e.tag "port" = s.port ∧
          e.tag "eventType" = SSH_SESSION_RX_BYTES) ↔ (s.bytesRecv ≠ 0 ∨ s.bytesSent ≠ 0)) ∧
      ((∃ e ∈ (checkBytesStatistics d now m).2, e.tag "ip" = s.ip ∧ e.tag "port" = s.port ∧
          e.tag "eventType" = SSH_SESSION_TX_BYTES) ↔ (s.bytesRecv ≠ 0 ∨ s.bytesSent ≠ 0)) ∧
      (∀ e ∈ (checkBytesStatistics d now m).2, e.tag "ip" = s.ip → e.tag "port" = s.port →
          e.tag "eventType" = SSH_SESSION_RX_BYTES →
          e.field "connbytes" = some (FieldValue.uint64 s.bytesRecv)) ∧
      (∀ e ∈ (checkBytesStatistics d now m).2, e.tag "ip" = s.ip → e.tag "port" = s.port →
          e.tag "eventType" = SSH_SESSION_TX_BYTES →
          e.field "connbytes" = some (FieldValue.uint64 s.bytesSent)) := by
  have hk : k ∈ m.keys := (mem_keys_iff m k).2 ⟨s, h⟩
  have hne : SSH_SESSION_RX_BYTES ≠ SSH_SESSION_TX_BYTES := by decide
  have horigin : ∀ e ∈ (checkBytesStatistics d now m).2, e.tag "ip" = s.ip →
      e.tag "port" = s.port →
      ¬ (s.bytesRecv = 0 ∧ s.bytesSent = 0) ∧
      ((e.tag "eventType" = SSH_SESSION_RX_BYTES ∧
          e.field "connbytes" = some (FieldValue.uint64 s.bytesRecv)) ∨
        (e.tag "eventType" = SSH_SESSION_TX_BYTES ∧
          e.field "connbytes" = some (FieldValue.uint64 s.bytesSent))) := by
    intro e he hip hport
    obtain ⟨s1, hget, -, -, hz, hev⟩ := flush_event_origin d now m hm e he
    rw [hip, hport, ← hm k s h, h] at hget
    cases hget
    exact ⟨hz, hev⟩
  have hnz : ¬ (s.bytesRecv = 0 ∧ s.bytesSent = 0) ↔ (s.bytesRecv ≠ 0 ∨ s.bytesSent ≠ 0) := by
    constructor
    · intro hn
      by_cases h1 : s.bytesRecv = 0
      · exact Or.inr (fun h2 => hn ⟨h1, h2⟩)
      · exact Or.inl h1
    · rintro (h1 | h1) ⟨h2, h3⟩
      · exact h1 h2
      · exact h1 h3
  refine ⟨⟨?_, ?_⟩, ⟨?_, ?_⟩, ?_, ?_⟩
  · rintro ⟨e, he, hip, hport, -⟩
    exact hnz.1 (horigin e he hip hport).1
  · intro hz
    obtain ⟨hrx, -⟩ := flushFold_emits d now m.keys (m, []) hm k s hk h (hnz.2 hz)
    obtain ⟨h1, h2, h3, -⟩ := rx_tags d now s
    exact ⟨_, hrx, h1, h2, h3⟩
  · rintro ⟨e, he, hip, hport, -⟩
    exact hnz.1 (horigin e he hip hport).1
  · intro hz
    obtain ⟨-, htx⟩ := flushFold_emits d now m.keys (m, []) hm k s hk h (hnz.2 hz)
    obtain ⟨h1, h2, h3, -⟩ := tx_tags d now s
    exact ⟨_, htx, h1, h2, h3⟩
  · intro e he hip hport hty
    rcases (horigin e he hip hport).2 with ⟨-, hc⟩ | ⟨ht, -⟩
    · exact hc
    · exact absurd (hty.symm.trans ht) hne
  · intro e he hip hport hty
    rcases (horigin e he hip hport).2 with ⟨ht, -⟩ | ⟨-, hc⟩
    · exact absurd (ht.symm.trans hty) hne
    · exact hc

theorem flush_emits_both_iff_some_counter_nonzero_witness :
    ((∃ e ∈ (checkBytesStatistics "dev" 1000 idleTable).2,
          e.tag "ip" = "10.0.0.7" ∧ e.tag "port" = "40022" ∧
          e.tag "eventType" = SSH_SESSION_RX_BYTES) ↔ ((0 : Nat) ≠ 0 ∨ (64 : Nat) ≠ 0)) ∧
      ((∃ e ∈ (checkBytesStatistics "dev" 1000 idleTable).2,
          e.tag "ip" = "10.0.0.7" ∧ e.tag "port" = "40022" ∧
          e.tag "eventType" = SSH_SESSION_TX_BYTES) ↔ ((0 : Nat) ≠ 0 ∨ (64 : Nat) ≠ 0)) ∧
      (∀ e ∈ (checkBytesStatistics "dev" 1000 idleTable).2,
          e.tag "ip" = "10.0.0.7" → e.tag "port" = "40022" →
          e.tag "eventType" = SSH_SESSION_RX_BYTES →
          e.field "connbytes" = some (FieldValue.uint64 0)) ∧
      (∀ e ∈ (checkBytesStatistics "dev" 1000 idleTable).2,
          e.tag "ip" = "10.0.0.7" → e.tag "port" = "40022" →
          e.tag "eventType" = SSH_SESSION_TX_BYTES →
          e.field "connbytes" = some (FieldValue.uint64 64)) :=
  flush_emits_both_iff_some_counter_nonzero "dev" 1000 idleTable
    (keysMatch_of_entries idleTable (by decide)) "10.0.0.7:40022"
    { ip := "10.0.0.7", port := "40022", user := "bob", bytesSent := 64 } (by decide)

/-- C8: after a flush of a table whose entries are stored under the keys of
their own `ip` and `port`, every entry that remains has both byte counters zero
and the `user`, `ip`, `port` and `delete` flag it had before the flush. -/
theorem flush_resets_remaining_sessions (d : String) (now : Int) (m : SessionTable)
    (hm : KeysMatch m) (k : String) (t : sshSession)
    (h : (checkBytesStatistics d now m).1.get k = some t) :
    t.bytesRecv = 0 ∧ t.bytesSent = 0 ∧
      ∃ s, m.get k = some s ∧ t.user = s.user ∧ t.ip = s.ip ∧ t.port = s.port ∧
        t.delete = s.delete := by
  rw [checkBytesStatistics_get d now m hm k] at h
  cases hg : m.get k with
  | none => simp [hg] at h
  | some s =>
    by_cases hd : s.delete = true
    · simp [hg, afterFlush, hd] at h
    · simp [hg, afterFlush, hd] at h
      subst h
      exact ⟨rfl, rfl, s, rfl, rfl, rfl, rfl, rfl⟩

theorem flush_resets_remaining_sessions_witness :
    (0 : Nat) = 0 ∧ (0 : Nat) = 0 ∧
      ∃ s, idleTable.get "10.0.0.7:40022" = some s ∧ "bob" = s.user ∧ "10.0.0.7" = s.ip ∧
        "40022" = s.port ∧ false = s.delete :=
  flush_resets_remaining_sessions "dev" 1000 idleTable
    (keysMatch_of_entries idleTable (by decide)) "10.0.0.7:40022"
    { ip := "10.0.0.7", port := "40022", user := "bob" } (by decide)

/-! ## Lemmas on the sniffer and the log tailer -/

theorem sprintfKey_ne_empty (a b : String) : sprintfKey a b ≠ "" := by
  intro h
  have h2 := congrArg String.data h
  simp [sprintfKey] at h2

theorem snifferSshTraffic_get (names : Nat → Option String) (A : String) (P : Nat)
    (m : SessionTable) (pkt : Packet) (k : String)
    (hkey : getKeyMap names A P pkt ≠ "") :
    (snifferSshTraffic names A P m pkt).get k =
      if getKeyMap names A P pkt = k then
        some (if pkt.SrcPort = P then
            { sessionOrNew m (getKeyMap names A P pkt) with
              bytesSent := ((sessionOrNew m (getKeyMap names A P pkt)).bytesSent +
                pkt.CaptureLength % 2 ^ 64) % 2 ^ 64 }
          else if pkt.DstPort = P then
            { sessionOrNew m (getKeyMap names A P pkt) with
              bytesRecv := ((sessionOrNew m (getKeyMap names A P pkt)).bytesRecv +
                pkt.CaptureLength % 2 ^ 64) % 2 ^ 64 }
          else sessionOrNew m (getKeyMap names A P pkt))
      else m.get k := by
  unfold snifferSshTraffic sessionOrNew
  generalize getKeyMap names A P pkt = key at hkey ⊢
  simp only [hkey, if_false]
  cases hg : m.get key with
  | some s0 =>
    by_cases h1 : pkt.SrcPort = P
    · simp [h1, hg, get_set]
    · by_cases h2 : pkt.DstPort = P
      · simp [h1, h2, hg, get_set]
      · by_cases hk : key = k
        · subst hk
          simp [h1, h2, hg]
        · simp [h1, h2, hk]
  | none =>
    by_cases hk : key = k
    · by_cases h1 : pkt.SrcPort = P
      · simp [h1, hk, get_set]
      · by_cases h2 : pkt.DstPort = P
        · simp [h1, h2, hk, get_set]
        · simp [h1, h2, hk, get_set]
    · by_cases h1 : pkt.SrcPort = P
      · simp [h1, hk, get_set]
      · by_cases h2 : pkt.DstPort = P
        · simp [h1, h2, hk, get_set]
        · simp [h1, h2, hk, get_set]

theorem keepsEntries_refl (m : SessionTable) : KeepsEntries m m :=
  fun _ s h => ⟨s, h, id⟩

theorem keepsEntries_set (m : SessionTable) (key : String) (v : sshSession)
    (hv : ∀ s, m.get key = some s → s.delete = true → v.delete = true) :
    KeepsEntries m (m.set key v) := by
  intro k s h
  rw [get_set]
  by_cases hk : key = k
  · subst hk
    exact ⟨v, by simp, hv s h⟩
  · exact ⟨s, by simp [hk, h], id⟩

theorem keepsEntries_setDeleteIfExists (m : SessionTable) (key : String) :
    KeepsEntries m (setDeleteIfExists m key) := by
  unfold setDeleteIfExists
  cases hg : m.get key with
  | none => exact keepsEntries_refl m
  | some s0 => exact keepsEntries_set m key _ (fun _ _ _ => rfl)

theorem keepsEntries_setUserIfExists (m : SessionTable) (key user : String) :
    KeepsEntries m (setUserIfExists m key user) := by
  unfold setUserIfExists
  cases hg : m.get key with
  | none => exact keepsEntries_refl m
  | some s0 =>
    apply keepsEntries_set
    intro s hs hd
    rw [hg] at hs
    cases hs
    exact hd

theorem keepsEntries_classifyLine (tsMs : Int) (m : SessionTable) (line : LogLine) :
    KeepsEntries m (classifyLine tsMs m line).1 := by
  unfold classifyLine
  split_ifs
  · exact keepsEntries_refl m
  · dsimp only
    cases hg : m.get (sprintfKey (line.reFailedLogin.getD 4 "") (line.reFailedLogin.getD 5 "")) with
    | none =>
      apply keepsEntries_set
      intro s hs
      rw [hg] at hs
      cases hs
    | some s0 =>
      apply keepsEntries_set
      intro s hs hd
      rw [hg] at hs
      cases hs
      exact hd
  · exact keepsEntries_setDeleteIfExists m _
  · exact keepsEntries_setDeleteIfExists m _
  · exact keepsEntries_setUserIfExists m _ _
  · exact keepsEntries_setDeleteIfExists m _
  · exact keepsEntries_setDeleteIfExists m _
  · exact keepsEntries_refl m

theorem keepsEntries_monitorSshLogin (d : String) (getTs : String → Int) (m : SessionTable)
    (line : LogLine) : KeepsEntries m (monitorSshLogin d getTs m line).1 := by
  unfold monitorSshLogin
  split_ifs
  · dsimp only
    split <;> exact keepsEntries_classifyLine _ m line
  · exact keepsEntries_refl m

theorem keepsEntries_snifferSshTraffic (names : Nat → Option String) (A : String) (P : Nat)
    (m : SessionTable) (pkt : Packet) : KeepsEntries m (snifferSshTraffic names A P m pkt) := by
  by_cases hkey : getKeyMap names A P pkt = ""
  · unfold snifferSshTraffic
    simp only [hkey, if_true]
    exact keepsEntries_refl m
  · intro k s h
    rw [snifferSshTraffic_get names A P m pkt k hkey]
    by_cases hk : getKeyMap names A P pkt = k
    · subst hk
      have hs : sessionOrNew m (getKeyMap names A P pkt) = s := by
        simp [sessionOrNew, h]
      rw [hs]
      simp only [if_true]
      refine ⟨_, rfl, ?_⟩
      intro hd
      split_ifs <;> exact hd
    · exact ⟨s, by simp [hk, h], id⟩

/-! ## Directionality of the sniffer and the session key -/

theorem TCPPort_String_unnamed (names : Nat → Option String) (Q : Nat) (hQ : names Q = none) :
    TCPPort.String names Q = toString Q := by
  simp [TCPPort.String, hQ]

/-- C4, as stated, fails: with local address 10.0.0.9 and listening port 51022
(a port without a well-known name), a record 10.0.0.5:51022 → 10.0.0.9:51022 of
length 120, whose remote port equals the listening port, selects key
`10.0.0.5:51022` and adds the 120 bytes to `bytesSent`, leaving `bytesRecv` at 0. -/
theorem sniffer_counts_remote_listen_port_as_sent :
    getKeyMap sshPortName "10.0.0.9" 51022 ⟨"10.0.0.5", "10.0.0.9", 51022, 51022, 120⟩ =
        "10.0.0.5:51022" ∧
      snifferSshTraffic sshPortName "10.0.0.9" 51022 []
          ⟨"10.0.0.5", "10.0.0.9", 51022, 51022, 120⟩ =
        [("10.0.0.5:51022",
          { ip := "10.0.0.5", port := "51022", bytesSent := 120, bytesRecv := 0 })] := by
  decide

/-- C4 (amended): given local address `A` and listening port `P`, for every
remote endpoint `B:Q` whose port has no well-known name and every capture length
`n`: a record `A:P → B:Q` selects key `B:Q` and adds `n` (modulo 2^64) to
`bytesSent` only; a record `B:Q → A:P` selects key `B:Q` and adds `n` to
`bytesRecv` only when `Q ≠ P`, to `bytesSent` only when `Q = P`; a record whose
source is not `A` with port `P` and whose destination address is not `A` yields
the empty key and leaves the table unchanged. -/
theorem sniffer_directionality (names : Nat → Option String) (A B : String) (P Q n : Nat)
    (m : SessionTable) (hQ : names Q = none) :
    (getKeyMap names A P ⟨A, B, P, Q, n⟩ = sprintfKey B (toString Q) ∧
      ∀ k, (snifferSshTraffic names A P m ⟨A, B, P, Q, n⟩).get k =
        if sprintfKey B (toString Q) = k then
          some { sessionOrNew m (sprintfKey B (toString Q)) with
            bytesSent := ((sessionOrNew m (sprintfKey B (toString Q))).bytesSent +
              n % 2 ^ 64) % 2 ^ 64 }
        else m.get k) ∧
    (getKeyMap names A P ⟨B, A, Q, P, n⟩ = sprintfKey B (toString Q) ∧
      ∀ k, (snifferSshTraffic names A P m ⟨B, A, Q, P, n⟩).get k =
        if sprintfKey B (toString Q) = k then
          some (if Q = P then
              { sessionOrNew m (sprintfKey B (toString Q)) with
                bytesSent := ((sessionOrNew m (sprintfKey B (toString Q))).bytesSent +
                  n % 2 ^ 64) % 2 ^ 64 }
            else
              { sessionOrNew m (sprintfKey B (toString Q)) with
                bytesRecv := ((sessionOrNew m (sprintfKey B (toString Q))).bytesRecv +
                  n % 2 ^ 64) % 2 ^ 64 })
        else m.get k) ∧
    (∀ pkt : Packet, ¬ (pkt.SrcIP = A ∧ pkt.SrcPort = P) → pkt.DstIP ≠ A →
      getKeyMap names A P pkt = "" ∧ snifferSshTraffic names A P m pkt = m) := by
  have hk1 : getKeyMap names A P ⟨A, B, P, Q, n⟩ = sprintfKey B (toString Q) := by
    simp [getKeyMap, TCPPort_String_unnamed names Q hQ]
  have hk2 : getKeyMap names A P ⟨B, A, Q, P, n⟩ = sprintfKey B (toString Q) := by
    by_cases h : A = B ∧ Q = P
    · obtain ⟨rfl, rfl⟩ := h
      simp [getKeyMap, TCPPort_String_unnamed names Q hQ]
    · simp only [getKeyMap, h, if_false, if_true, TCPPort_String_unnamed names Q hQ]
  refine ⟨⟨hk1, ?_⟩, ⟨hk2, ?_⟩, ?_⟩
  · intro k
    rw [snifferSshTraffic_get names A P m _ k (by rw [hk1]; exact sprintfKey_ne_empty _ _), hk1]
    simp
  · intro k
    rw [snifferSshTraffic_get names A P m _ k (by rw [hk2]; exact sprintfKey_ne_empty _ _), hk2]
    by_cases hqp : Q = P <;> simp [hqp]
  · intro pkt h1 h2
    have hkey : getKeyMap names A P pkt = "" := by
      have h1b : ¬ (A = pkt.SrcIP ∧ pkt.SrcPort = P) := fun h => h1 ⟨h.1.symm, h.2⟩
      have h2b : ¬ A = pkt.DstIP := fun h => h2 h.symm
      simp only [getKeyMap, h1b, h2b, if_false]
    refine ⟨hkey, ?_⟩
    unfold snifferSshTraffic
    simp only [hkey, if_true]

theorem sniffer_directionality_witness :
    (getKeyMap sshPortName "10.0.0.9" 22 ⟨"10.0.0.9", "10.0.0.5", 22, 51000, 120⟩ =
        sprintfKey "10.0.0.5" (toString 51000) ∧
      ∀ k, (snifferSshTraffic sshPortName "10.0.0.9" 22 []
          ⟨"10.0.0.9", "10.0.0.5", 22, 51000, 120⟩).get k =
        if sprintfKey "10.0.0.5" (toString 51000) = k then
          some { sessionOrNew [] (sprintfKey "10.0.0.5" (toString 51000)) with
            bytesSent := ((sessionOrNew [] (sprintfKey "10.0.0.5" (toString 51000))).bytesSent +
              120 % 2 ^ 64) % 2 ^ 64 }
        else SessionTable.get [] k) ∧
    (getKeyMap sshPortName "10.0.0.9" 22 ⟨"10.0.0.5", "10.0.0.9", 51000, 22, 120⟩ =
        sprintfKey "10.0.0.5" (toString 51000) ∧
      ∀ k, (snifferSshTraffic sshPortName "10.0.0.9" 22 []
          ⟨"10.0.0.5", "10.0.0.9", 51000, 22, 120⟩).get k =
        if sprintfKey "10.0.0.5" (toString 51000) = k then
          some (if 51000 = 22 then
              { sessionOrNew [] (sprintfKey "10.0.0.5" (toString 51000)) with
                bytesSent := ((sessionOrNew [] (sprintfKey "10.0.0.5" (toString 51000))).bytesSent +
                  120 % 2 ^ 64) % 2 ^ 64 }
            else
              { sessionOrNew [] (sprintfKey "10.0.0.5" (toString 51000)) with
                bytesRecv := ((sessionOrNew [] (sprintfKey "10.0.0.5" (toString 51000))).bytesRecv +
                  120 % 2 ^ 64) % 2 ^ 64 })
        else SessionTable.get [] k) ∧
    (∀ pkt : Packet, ¬ (pkt.SrcIP = "10.0.0.9" ∧ pkt.SrcPort = 22) → pkt.DstIP ≠ "10.0.0.9" →
      getKeyMap sshPortName "10.0.0.9" 22 pkt = "" ∧
        snifferSshTraffic sshPortName "10.0.0.9" 22 [] pkt = []) :=
  sniffer_directionality sshPortName "10.0.0.9" "10.0.0.5" 22 51000 120 [] rfl

/-- C5, as stated, fails: with local address 10.0.0.9 and listening port 51022
(a port without a well-known name), a record 10.0.0.5:51022 → 10.0.0.9:50000
(first rule not met, destination local) adds its 120 bytes to `bytesSent`, and a
record 10.0.0.5:51000 → 10.0.0.9:50000 adds them to no counter. -/
theorem sniffer_second_rule_not_always_received :
    snifferSshTraffic sshPortName "10.0.0.9" 51022 []
          ⟨"10.0.0.5", "10.0.0.9", 51022, 50000, 120⟩ =
        [("10.0.0.5:51022",
          { ip := "10.0.0.5", port := "51022", bytesSent := 120, bytesRecv := 0 })] ∧
      snifferSshTraffic sshPortName "10.0.0.9" 51022 []
          ⟨"10.0.0.5", "10.0.0.9", 51000, 50000, 120⟩ =
        [("10.0.0.5:51000",
          { ip := "10.0.0.5", port := "51000", bytesSent := 0, bytesRecv := 0 })] := by
  decide

/-- C5 (amended): for every captured record that does not satisfy the first rule,
whose destination address is the local address and whose source port has no
well-known name, the session keyed `sourceAddress:sourcePort` (created when
absent) gets the capture length added (modulo 2^64) to `bytesRecv` only when the
source port is not the listening port and the destination port is; to
`bytesSent` only when the source port is the listening port; and to no counter
when neither port is the listening port. Every other key is untouched. -/
theorem sniffer_second_rule (names : Nat → Option String) (A : String) (P : Nat)
    (m : SessionTable) (pkt : Packet) (h1 : ¬ (pkt.SrcIP = A ∧ pkt.SrcPort = P))
    (h2 : pkt.DstIP = A) (hQ : names pkt.SrcPort = none) :
    getKeyMap names A P pkt = sprintfKey pkt.SrcIP (toString pkt.SrcPort) ∧
      ∀ k, (snifferSshTraffic names A P m pkt).get k =
        if sprintfKey pkt.SrcIP (toString pkt.SrcPort) = k then
          some (if pkt.SrcPort = P then
              { sessionOrNew m (sprintfKey pkt.SrcIP (toString pkt.SrcPort)) with
                bytesSent :=
                  ((sessionOrNew m (sprintfKey pkt.SrcIP (toString pkt.SrcPort))).bytesSent +
                    pkt.CaptureLength % 2 ^ 64) % 2 ^ 64 }
            else if pkt.DstPort = P then
              { sessionOrNew m (sprintfKey pkt.SrcIP (toString pkt.SrcPort)) with
                bytesRecv :=
                  ((sessionOrNew m (sprintfKey pkt.SrcIP (toString pkt.SrcPort))).bytesRecv +
                    pkt.CaptureLength % 2 ^ 64) % 2 ^ 64 }
            else sessionOrNew m (sprintfKey pkt.SrcIP (toString pkt.SrcPort)))
        else m.get k := by
  have h1b : ¬ (A = pkt.SrcIP ∧ pkt.SrcPort = P) := fun h => h1 ⟨h.1.symm, h.2⟩
  have hkey : getKeyMap names A P pkt = sprintfKey pkt.SrcIP (toString pkt.SrcPort) := by
    simp only [getKeyMap, h1b, h2, if_false, if_true, TCPPort_String_unnamed names _ hQ]
  refine ⟨hkey, fun k => ?_⟩
  rw [snifferSshTraffic_get names A P m pkt k (by rw [hkey]; exact sprintfKey_ne_empty _ _), hkey]

theorem sniffer_second_rule_witness :
    getKeyMap sshPortName "10.0.0.9" 22 ⟨"10.0.0.5", "10.0.0.9", 51000, 22, 120⟩ =
        sprintfKey "10.0.0.5" (toString 51000) ∧
      ∀ k, (snifferSshTraffic sshPortName "10.0.0.9" 22 rxOnlyTable
          ⟨"10.0.0.5", "10.0.0.9", 51000, 22, 120⟩).get k =
        if sprintfKey "10.0.0.5" (toString 51000) = k then
          some (if 51000 = 22 then
              { sessionOrNew rxOnlyTable (sprintfKey "10.0.0.5" (toString 51000)) with
                bytesSent :=
                  ((sessionOrNew rxOnlyTable (sprintfKey "10.0.0.5" (toString 51000))).bytesSent +
                    120 % 2 ^ 64) % 2 ^ 64 }
            else if 22 = 22 then
              { sessionOrNew rxOnlyTable (sprintfKey "10.0.0.5" (toString 51000)) with
                bytesRecv :=
                  ((sessionOrNew rxOnlyTable (sprintfKey "10.0.0.5" (toString 51000))).bytesRecv +
                    120 % 2 ^ 64) % 2 ^ 64 }
            else sessionOrNew rxOnlyTable (sprintfKey "10.0.0.5" (toString 51000)))
        else rxOnlyTable.get k :=
  sniffer_second_rule sshPortName "10.0.0.9" 22 rxOnlyTable
    ⟨"10.0.0.5", "10.0.0.9", 51000, 22, 120⟩ (by decide) rfl rfl

/-- For every remote endpoint whose port has a well-known name, the key that
`getKeyMap` builds for a record towards the local address and listening port is
not the key `ip:port` of the log path. -/
theorem getKeyMap_named_port_ne_log_key (names : Nat → Option String) (A B : String)
    (P Q n : Nat) (name : String) (hQ : names Q = some name) :
    getKeyMap names A P ⟨B, A, Q, P, n⟩ ≠ sprintfKey B (toString Q) := by
  have hkey : getKeyMap names A P ⟨B, A, Q, P, n⟩ =
      sprintfKey B (toString Q ++ "(" ++ name ++ ")") := by
    by_cases h : A = B ∧ Q = P
    · obtain ⟨rfl, rfl⟩ := h
      simp [getKeyMap, TCPPort.String, hQ]
    · simp only [getKeyMap, h, if_false, if_true, TCPPort.String, hQ]
  rw [hkey]
  intro h
  have h2 := congrArg (fun t : String => t.data.length) h
  simp [sprintfKey] at h2

/-- C6: the code at the failing input. With the documented port name `22(ssh)`,
local address 10.0.0.9 and listening port 2222, the log path stores the remote
endpoint 10.0.0.5 port 22 under `10.0.0.5:22`, while `getKeyMap` gives
`10.0.0.5:22(ssh)` for a record of the same endpoint, so the sniffer opens a
second entry instead of counting on the first. -/
theorem sniffer_key_differs_from_log_key_for_named_port :
    (monitorSshLogin "dev" (fun _ => 0) [] failedLoginLine).1 =
        [("10.0.0.5:22", { ip := "10.0.0.5", port := "22", user := "root" })] ∧
      getKeyMap sshPortName "10.0.0.9" 2222 ⟨"10.0.0.5", "10.0.0.9", 22, 2222, 120⟩ =
        "10.0.0.5:22(ssh)" ∧
      snifferSshTraffic sshPortName "10.0.0.9" 2222
          (monitorSshLogin "dev" (fun _ => 0) [] failedLoginLine).1
          ⟨"10.0.0.5", "10.0.0.9", 22, 2222, 120⟩ =
        [("10.0.0.5:22", { ip := "10.0.0.5", port := "22", user := "root" }),
         ("10.0.0.5:22(ssh)", { ip := "10.0.0.5", port := "22(ssh)", bytesRecv := 120 })] := by
  decide

/-! ## Frame and monotonicity of the three steps -/

/-- C9: the log-tailer step and the sniffer step remove no entry: a key present
in the table before either step is present after it, for every table, log line
and captured record. -/
theorem tailer_and_sniffer_keep_keys (names : Nat → Option String) (A : String) (P : Nat)
    (d : String) (getTs : String → Int) (m : SessionTable) (line : LogLine) (pkt : Packet)
    (k : String) (s : sshSession) (h : m.get k = some s) :
    (∃ t, (monitorSshLogin d getTs m line).1.get k = some t) ∧
      (∃ t, (snifferSshTraffic names A P m pkt).get k = some t) := by
  obtain ⟨t1, h1, -⟩ := keepsEntries_monitorSshLogin d getTs m line k s h
  obtain ⟨t2, h2, -⟩ := keepsEntries_snifferSshTraffic names A P m pkt k s h
  exact ⟨⟨t1, h1⟩, ⟨t2, h2⟩⟩

theorem tailer_and_sniffer_keep_keys_witness :
    (∃ t, (monitorSshLogin "dev" (fun _ => 0) closingTable disconnectedLine).1.get
        "10.0.0.5:51000" = some t) ∧
      (∃ t, (snifferSshTraffic noPortNames "10.0.0.9" 22 closingTable
        ⟨"10.0.0.5", "10.0.0.9", 51000, 22, 120⟩).get "10.0.0.5:51000" = some t) :=
  tailer_and_sniffer_keep_keys noPortNames "10.0.0.9" 22 "dev" (fun _ => 0) closingTable
    disconnectedLine ⟨"10.0.0.5", "10.0.0.9", 51000, 22, 120⟩ "10.0.0.5:51000"
    { ip := "10.0.0.5", port := "51000", user := "alice", bytesRecv := 120, delete := true }
    (by decide)

/-- C10: the `delete` flag is monotonic: for one log line, one captured record or
one flush cycle, an entry that has `delete = true` before the step and is still
in the table after the step has `delete = true` after it. -/
theorem delete_flag_monotonic (names : Nat → Option String) (A : String) (P : Nat)
    (d : String) (getTs : String → Int) (now : Int) (m : SessionTable) (line : LogLine)
    (pkt : Packet) (k : String) (s : sshSession) (h : m.get k = some s)
    (hd : s.delete = true) :
    (∀ t, (monitorSshLogin d getTs m line).1.get k = some t → t.delete = true) ∧
      (∀ t, (snifferSshTraffic names A P m pkt).get k = some t → t.delete = true) ∧
      (∀ t, (checkBytesStatistics d now m).1.get k = some t → t.delete = true) := by
  refine ⟨?_, ?_, ?_⟩
  · intro t ht
    obtain ⟨t1, h1, hd1⟩ := keepsEntries_monitorSshLogin d getTs m line k s h
    rw [ht] at h1
    cases h1
    exact hd1 hd
  · intro t ht
    obtain ⟨t1, h1, hd1⟩ := keepsEntries_snifferSshTraffic names A P m pkt k s h
    rw [ht] at h1
    cases h1
    exact hd1 hd
  · intro t ht
    obtain ⟨s1, hs1, hts⟩ := flushFold_source d now m.keys (m, []) k t ht
    rw [h] at hs1
    cases hs1
    rcases hts with rfl | rfl
    · exact hd
    · exact hd

theorem delete_flag_monotonic_witness :
    (∀ t, (monitorSshLogin "dev" (fun _ => 0) closingTable failedLoginLine).1.get
        "10.0.0.5:51000" = some t → t.delete = true) ∧
      (∀ t, (snifferSshTraffic noPortNames "10.0.0.9" 22 closingTable
        ⟨"10.0.0.5", "10.0.0.9", 51000, 22, 120⟩).get "10.0.0.5:51000" = some t →
          t.delete = true) ∧
      (∀ t, (checkBytesStatistics "dev" 1000 closingTable).1.get "10.0.0.5:51000" = some t →
        t.delete = true) :=
  delete_flag_monotonic noPortNames "10.0.0.9" 22 "dev" (fun _ => 0) 1000 closingTable
    failedLoginLine ⟨"10.0.0.5", "10.0.0.9", 51000, 22, 120⟩ "10.0.0.5:51000"
    { ip := "10.0.0.5", port := "51000", user := "alice", bytesRecv := 120, delete := true }
    (by decide) rfl

/-! ## Lemmas on the key, the events and one log line -/

theorem splitChars_no_sep (sep : Char) (l : List Char) (h : sep ∉ l) :
    splitChars sep l = [l] := by
  induction l with
  | nil => rfl
  | cons c cs ih =>
    have hc : ¬ c = sep := fun hcs => h (by simp [hcs])
    have hcs : sep ∉ cs := fun hm => h (List.mem_cons_of_mem _ hm)
    simp [splitChars, hc, ih hcs]

theorem splitChars_append (sep : Char) (l r : List Char) (h : sep ∉ l) :
    splitChars sep (l ++ sep :: r) = l :: splitChars sep r := by
  induction l with
  | nil => simp [splitChars]
  | cons c cs ih =>
    have hc : ¬ c = sep := fun hcs => h (by simp [hcs])
    have hcs : sep ∉ cs := fun hm => h (List.mem_cons_of_mem _ hm)
    simp [splitChars, hc, ih hcs]

theorem Split_sprintfKey (ip port : String) (hip : ':' ∉ ip.data) (hport : ':' ∉ port.data) :
    Split (sprintfKey ip port) = [ip, port] := by
  have hdata : (sprintfKey ip port).data = ip.data ++ ':' :: port.data := by
    simp [sprintfKey]
  simp [Split, hdata, splitChars_append _ _ _ hip, splitChars_no_sep _ _ hport]

theorem normalize_tags (d : String) (s : sshSession) :
    (s.TelegrafNormalize d).tag "ip" = s.ip ∧
    (s.TelegrafNormalize d).tag "port" = s.port ∧
    (s.TelegrafNormalize d).tag "group" = "SSH" ∧
    (s.TelegrafNormalize d).tag "eventType" = s.event ∧
    (s.TelegrafNormalize d).tag "user" = (if s.user = "" then "unknown" else s.user) ∧
    (s.TelegrafNormalize d).Time = s.tsMs := by
  simp [TelegrafEvent.tag, sshSession.TelegrafNormalize, List.find?]

theorem set_set (m : SessionTable) (k : String) (v w : sshSession) :
    (m.set k v).set k w = m.set k w := by
  induction m with
  | nil => simp [SessionTable.set]
  | cons e rest ih =>
    obtain ⟨a, x⟩ := e
    by_cases h : a = k
    · simp [SessionTable.set, h]
    · simp [SessionTable.set, h, ih]

theorem setDeleteIfExists_get (m : SessionTable) (key k : String) :
    (setDeleteIfExists m key).get k =
      if key = k then (m.get key).map (fun s => { s with delete := true }) else m.get k := by
  unfold setDeleteIfExists
  cases hg : m.get key with
  | none =>
    by_cases hk : key = k
    · subst hk
      simp [hg]
    · simp [hk]
  | some s0 => simp [get_set]

theorem setUserIfExists_get (m : SessionTable) (key user k : String) :
    (setUserIfExists m key user).get k =
      if key = k then (m.get key).map (fun s => { s with user := user }) else m.get k := by
  unfold setUserIfExists
  cases hg : m.get key with
  | none =>
    by_cases hk : key = k
    · subst hk
      simp [hg]
    · simp [hk]
  | some s0 => simp [get_set]

theorem setDeleteIfExists_absent (m : SessionTable) (key : String) (h : m.get key = none) :
    setDeleteIfExists m key = m := by
  simp [setDeleteIfExists, h]

theorem setUserIfExists_absent (m : SessionTable) (key user : String) (h : m.get key = none) :
    setUserIfExists m key user = m := by
  simp [setUserIfExists, h]

theorem monitorSshLogin_stamped (d : String) (getTs : String → Int) (m : SessionTable)
    (line : LogLine) (hT : 2 ≤ line.reTime.length) :
    monitorSshLogin d getTs m line =
      ((classifyLine (getTs (line.reTime.getD 1 "")) m line).1,
        match (classifyLine (getTs (line.reTime.getD 1 "")) m line).2 with
        | some newMetric => [newMetric.TelegrafNormalize d]
        | none => []) := by
  unfold monitorSshLogin
  have hT2 : line.reTime.length ≥ 2 := hT
  simp only [hT2, if_true]
  split <;> simp_all

theorem monitorSshLogin_unstamped (d : String) (getTs : String → Int) (m : SessionTable)
    (line : LogLine) (hT : line.reTime.length < 2) :
    monitorSshLogin d getTs m line = (m, []) := by
  unfold monitorSshLogin
  have hT2 : ¬ line.reTime.length ≥ 2 := by omega
  simp only [hT2, if_false]

theorem classifyLine_failedLogin (ts : Int) (m : SessionTable) (line : LogLine)
    (w g1 g2 user ip port : String) (hC : line.reConnection.length ≠ 5)
    (hF : line.reFailedLogin = [w, g1, g2, user, ip, port])
    (hip : ':' ∉ ip.data) (hport : ':' ∉ port.data) :
    classifyLine ts m line =
      (m.set (sprintfKey ip port)
          (match m.get (sprintfKey ip port) with
            | some session => { session with user := user }
            | none => { ip := ip, port := port, user := user }),
        some (newSshSesion user ip port NEW_SSH_FAILED_LOGIN_ATTEMPT ts)) := by
  unfold classifyLine
  simp only [hC, if_false, hF, List.length_cons, List.length_nil]
  cases hg : m.get (sprintfKey ip port) with
  | none => simp [hg, Split_sprintfKey ip port hip hport]
  | some s0 => simp [hg]

/-! ## The log tailer: user, pending delete and absent keys -/

/-- C11, as stated, fails: a failed-login line for root from 10.0.0.5 port 51000
that carries no time stamp emits no event and leaves the entry under
`10.0.0.5:51000` with its user alice. -/
theorem unstamped_failed_login_line_sets_no_user :
    rxOnlyTable.get "10.0.0.5:51000" =
        some { ip := "10.0.0.5", port := "51000", user := "alice", bytesRecv := 120 } ∧
      monitorSshLogin "dev" (getTsFromAuditLog juneClock) rxOnlyTable unstampedFailedLine =
        (rxOnlyTable, []) := by
  decide

/-- C11 (amended): a failed-login line for user `u` from `ip:port` (time stamp recognised,
not a connection line, `ip` and `port` without a colon as the expression
captures them) emits one `login_attempt_fail` event and leaves under key
`ip:port` the existing entry with only its user changed to `u`, or, when there
was none, a new entry with that ip and port, user `u`, zero counters and
`delete = false`; every other key is unchanged. -/
theorem failed_login_line_sets_user (d : String) (getTs : String → Int) (m : SessionTable)
    (line : LogLine) (w g1 g2 user ip port : String) (hT : 2 ≤ line.reTime.length)
    (hC : line.reConnection.length ≠ 5)
    (hF : line.reFailedLogin = [w, g1, g2, user, ip, port])
    (hip : ':' ∉ ip.data) (hport : ':' ∉ port.data) :
    (∃ e, (monitorSshLogin d getTs m line).2 = [e] ∧
        e.tag "eventType" = "login_attempt_fail" ∧ e.tag "ip" = ip ∧ e.tag "port" = port ∧
        e.tag "user" = (if user = "" then "unknown" else user)) ∧
      (monitorSshLogin d getTs m line).1.get (sprintfKey ip port) =
        some (match m.get (sprintfKey ip port) with
          | some session => { session with user := user }
          | none =>
            { ip := ip, port := port, user := user, bytesRecv := 0, bytesSent := 0,
              delete := false }) ∧
      ∀ k, k ≠ sprintfKey ip port → (monitorSshLogin d getTs m line).1.get k = m.get k := by
  rw [monitorSshLogin_stamped d getTs m line hT,
    classifyLine_failedLogin _ m line w g1 g2 user ip port hC hF hip hport]
  refine ⟨⟨_, rfl, ?_⟩, ?_, ?_⟩
  · obtain ⟨h1, h2, -, h4, h5, -⟩ :=
      normalize_tags d (newSshSesion user ip port NEW_SSH_FAILED_LOGIN_ATTEMPT
        (getTs (line.reTime.getD 1 "")))
    exact ⟨h4, h1, h2, h5⟩
  · simp only [get_set, if_true]
  · intro k hk
    simp only [get_set, if_neg (Ne.symm hk)]

theorem failed_login_line_sets_user_witness :
    (∃ e, (monitorSshLogin "dev" (fun _ => 0) closingTable failedRootLine).2 = [e] ∧
        e.tag "eventType" = "login_attempt_fail" ∧ e.tag "ip" = "10.0.0.5" ∧
        e.tag "port" = "51000" ∧ e.tag "user" = (if "root" = "" then "unknown" else "root")) ∧
      (monitorSshLogin "dev" (fun _ => 0) closingTable failedRootLine).1.get
          (sprintfKey "10.0.0.5" "51000") =
        some (match closingTable.get (sprintfKey "10.0.0.5" "51000") with
          | some session => { session with user := "root" }
          | none =>
            { ip := "10.0.0.5", port := "51000", user := "root", bytesRecv := 0, bytesSent := 0,
              delete := false }) ∧
      ∀ k, k ≠ sprintfKey "10.0.0.5" "51000" →
        (monitorSshLogin "dev" (fun _ => 0) closingTable failedRootLine).1.get k =
          closingTable.get k :=
  failed_login_line_sets_user "dev" (fun _ => 0) closingTable failedRootLine
    "Failed password for root from 10.0.0.5 port 51000" "password" "" "root" "10.0.0.5" "51000"
    (by decide) (by decide) rfl (by decide) (by decide)

theorem monitorSshLogin_failedLogin_table (d : String) (getTs : String → Int)
    (m : SessionTable) (line : LogLine) (ip port : String)
    (h : IsFailedLoginFrom line ip port) (hip : ':' ∉ ip.data) (hport : ':' ∉ port.data) :
    (monitorSshLogin d getTs m line).1 =
      m.set (sprintfKey ip port)
        (match m.get (sprintfKey ip port) with
          | some session => { session with user := line.reFailedLogin.getD 3 "" }
          | none => { ip := ip, port := port, user := line.reFailedLogin.getD 3 "" }) := by
  obtain ⟨hT, hC, hF, h4, h5⟩ := h
  rw [monitorSshLogin_stamped d getTs m line hT]
  unfold classifyLine
  simp only [hC, if_false, hF, if_true, h4, h5]
  cases hg : m.get (sprintfKey ip port) with
  | none => simp [Split_sprintfKey ip port hip hport]
  | some s0 => simp

theorem monitorSshLogin_successfulLogin_table (d : String) (getTs : String → Int)
    (m : SessionTable) (line : LogLine) (user ip port : String)
    (h : IsSuccessfulLoginFrom line user ip port) :
    (monitorSshLogin d getTs m line).1 = setUserIfExists m (sprintfKey ip port) user := by
  obtain ⟨hT, hC, hF, hFF, hM, hS, h1, h2, h3⟩ := h
  rw [monitorSshLogin_stamped d getTs m line hT]
  unfold classifyLine
  simp only [hC, hF, hFF, hM, hS, if_false, if_true, h1, h2, h3]

theorem processLines_failedLogins_get (d : String) (getTs : String → Int) (ip port : String)
    (hip : ':' ∉ ip.data) (hport : ':' ∉ port.data) (fs : List LogLine) :
    ∀ (m : SessionTable), (∀ l ∈ fs, IsFailedLoginFrom l ip port) →
      ∃ u, (processLines d getTs m fs).get (sprintfKey ip port) =
        (match m.get (sprintfKey ip port) with
          | some s0 => some s0
          | none => if fs = [] then none else some { ip := ip, port := port }).map
          (fun s : sshSession => { s with user := u }) := by
  induction fs with
  | nil =>
    intro m _
    cases hg : m.get (sprintfKey ip port) with
    | none => exact ⟨"", by simp [processLines, hg]⟩
    | some s0 => exact ⟨s0.user, by simp [processLines, hg]⟩
  | cons l rest ih =>
    intro m hfs
    have hl := hfs l (List.mem_cons_self _ _)
    have hrest : ∀ x ∈ rest, IsFailedLoginFrom x ip port :=
      fun x hx => hfs x (List.mem_cons_of_mem _ hx)
    obtain ⟨u, hu⟩ := ih (monitorSshLogin d getTs m l).1 hrest
    refine ⟨u, ?_⟩
    have hstep : processLines d getTs m (l :: rest) =
        processLines d getTs (monitorSshLogin d getTs m l).1 rest := by
      simp [processLines]
    rw [hstep, hu, monitorSshLogin_failedLogin_table d getTs m l ip port hl hip hport]
    simp only [get_set, if_true]
    cases hg : m.get (sprintfKey ip port) with
    | none => simp
    | some s0 => simp

/-- C12, as stated, fails: after two failed-login lines for root, a
successful-login line for alice from the same 10.0.0.5 port 51000 that carries no
time stamp leaves the stored user root; and with no failed-login line and no
earlier entry, a time-stamped successful-login line leaves no session under the
key. -/
theorem unstamped_login_after_failed_attempts_keeps_user :
    (monitorSshLogin "dev" (getTsFromAuditLog juneClock)
        (processLines "dev" (getTsFromAuditLog juneClock) [] [failedRootLine, failedRootLine])
        unstampedAcceptedLine).1.get "10.0.0.5:51000" =
        some { ip := "10.0.0.5", port := "51000", user := "root" } ∧
      (monitorSshLogin "dev" (getTsFromAuditLog juneClock)
        (processLines "dev" (getTsFromAuditLog juneClock) [] []) acceptedLine).1.get
          "10.0.0.5:51000" = none := by
  decide

/-- C12 (amended): after any sequence of time-stamped failed-login lines followed
by a time-stamped successful-login line of user `u`, all for the same `ip:port`,
the entry under key `ip:port` is the one that was there before with only its user
replaced by `u`, or, when there was none and a failed-login line created it, the
entry with that ip and port, zero counters, `delete = false` and user `u`; with no
failed-login line and no earlier entry there is no session under the key. -/
theorem login_after_failed_attempts_sets_user (d : String) (getTs : String → Int)
    (m : SessionTable) (fs : List LogLine) (success : LogLine) (u ip port : String)
    (hfs : ∀ l ∈ fs, IsFailedLoginFrom l ip port)
    (hs : IsSuccessfulLoginFrom success u ip port)
    (hip : ':' ∉ ip.data) (hport : ':' ∉ port.data) :
    (monitorSshLogin d getTs (processLines d getTs m fs) success).1.get (sprintfKey ip port) =
      match m.get (sprintfKey ip port) with
      | some s0 => some { s0 with user := u }
      | none =>
        if fs = [] then none
        else some { ip := ip, port := port, user := u, bytesRecv := 0, bytesSent := 0,
                    delete := false } := by
  obtain ⟨u1, hu1⟩ := processLines_failedLogins_get d getTs ip port hip hport fs m hfs
  rw [monitorSshLogin_successfulLogin_table d getTs _ success u ip port hs,
    setUserIfExists_get, if_pos rfl, hu1]
  cases hg : m.get (sprintfKey ip port) with
  | none =>
    by_cases hfs0 : fs = []
    · simp [hfs0]
    · simp [hfs0]
  | some s0 => simp

theorem login_after_failed_attempts_sets_user_witness :
    (monitorSshLogin "dev" (fun _ => 0)
        (processLines "dev" (fun _ => 0) [] [failedRootLine, failedRootLine]) acceptedLine).1.get
        (sprintfKey "10.0.0.5" "51000") =
      match SessionTable.get [] (sprintfKey "10.0.0.5" "51000") with
      | some s0 => some { s0 with user := "alice" }
      | none =>
        if [failedRootLine, failedRootLine] = [] then none
        else some { ip := "10.0.0.5", port := "51000", user := "alice", bytesRecv := 0,
                    bytesSent := 0, delete := false } :=
  login_after_failed_attempts_sets_user "dev" (fun _ => 0) [] [failedRootLine, failedRootLine]
    acceptedLine "alice" "10.0.0.5" "51000"
    (by intro l hl; simp at hl; subst hl; unfold IsFailedLoginFrom; decide)
    (by unfold IsSuccessfulLoginFrom; decide) (by decide) (by decide)

/-- C13, as stated, fails: a line `Connection closed by 10.0.0.5 port 51000` that
carries no time stamp emits no logout event and leaves the `delete` flag of the
entry under `10.0.0.5:51000` at false. -/
theorem unstamped_closed_line_emits_no_logout :
    (rxOnlyTable.get "10.0.0.5:51000").map (fun s => s.delete) = some false ∧
      monitorSshLogin "dev" (getTsFromAuditLog juneClock) rxOnlyTable unstampedClosedLine =
        (rxOnlyTable, []) := by
  decide

/-- C13 (amended): a line with a time stamp that matches only the generic
`Connection closed by <ip> port <port>` pattern emits one `logout` event whose
user tag is the user stored in the entry under `ip:port`, or `unknown` when that
user is empty or there is no such entry, and sets the `delete` flag of that entry
when it exists; nothing else in the table changes. -/
theorem closed_line_logs_out_stored_user (d : String) (getTs : String → Int)
    (m : SessionTable) (line : LogLine) (w ip port : String) (hT : 2 ≤ line.reTime.length)
    (hC : line.reConnection.length ≠ 5) (hF : line.reFailedLogin.length ≠ 6)
    (hFF : line.reFinalFailedLogin.length ≠ 4) (hM : line.reMaxAuthExceeded.length ≠ 4)
    (hS : line.reSuccessfulLogin.length ≠ 4) (hD : line.reDisconnected.length ≠ 4)
    (hCl : line.reClosed = [w, ip, port]) :
    (∃ e, (monitorSshLogin d getTs m line).2 = [e] ∧
        e.tag "eventType" = "logout" ∧ e.tag "ip" = ip ∧ e.tag "port" = port ∧
        e.tag "user" =
          (match m.get (sprintfKey ip port) with
            | some session => if session.user = "" then "unknown" else session.user
            | none => "unknown")) ∧
      ∀ k, (monitorSshLogin d getTs m line).1.get k =
        if sprintfKey ip port = k then
          (m.get (sprintfKey ip port)).map (fun s : sshSession => { s with delete := true })
        else m.get k := by
  have hcl : classifyLine (getTs (line.reTime.getD 1 "")) m line =
      (setDeleteIfExists m (sprintfKey ip port),
        some (newSshSesion
          (match m.get (sprintfKey ip port) with
            | some session => session.user
            | none => "")
          ip port NEW_SSH_LOGOUT (getTs (line.reTime.getD 1 "")))) := by
    unfold classifyLine
    simp [hC, hF, hFF, hM, hS, hD, hCl]
  rw [monitorSshLogin_stamped d getTs m line hT, hcl]
  refine ⟨⟨_, rfl, ?_⟩, fun k => setDeleteIfExists_get m _ k⟩
  obtain ⟨h1, h2, -, h4, h5, -⟩ :=
    normalize_tags d (newSshSesion
      (match m.get (sprintfKey ip port) with
        | some session => session.user
        | none => "")
      ip port NEW_SSH_LOGOUT (getTs (line.reTime.getD 1 "")))
  refine ⟨h4, h1, h2, ?_⟩
  rw [h5]
  cases m.get (sprintfKey ip port) <;> simp [newSshSesion]

theorem closed_line_logs_out_stored_user_witness :
    (∃ e, (monitorSshLogin "dev" (fun _ => 0) rxOnlyTable closedLine).2 = [e] ∧
        e.tag "eventType" = "logout" ∧ e.tag "ip" = "10.0.0.5" ∧ e.tag "port" = "51000" ∧
        e.tag "user" =
          (match rxOnlyTable.get (sprintfKey "10.0.0.5" "51000") with
            | some session => if session.user = "" then "unknown" else session.user
            | none => "unknown")) ∧
      ∀ k, (monitorSshLogin "dev" (fun _ => 0) rxOnlyTable closedLine).1.get k =
        if sprintfKey "10.0.0.5" "51000" = k then
          (rxOnlyTable.get (sprintfKey "10.0.0.5" "51000")).map
            (fun s : sshSession => { s with delete := true })
        else rxOnlyTable.get k :=
  closed_line_logs_out_stored_user "dev" (fun _ => 0) rxOnlyTable closedLine
    "Connection closed by 10.0.0.5 port 51000" "10.0.0.5" "51000"
    (by decide) (by decide) (by decide) (by decide) (by decide) (by decide) (by decide) rfl

/-- C14: a line that is not handled as a failed login attempt and whose key
`ip:port`, for each of the final-failed-login, maximum-attempts, successful-login,
disconnect and generic connection-closed patterns that matches, is not in the
table leaves the table exactly as it was. The step is a total function, so it
cannot fail. -/
theorem absent_key_line_leaves_table (d : String) (getTs : String → Int) (m : SessionTable)
    (line : LogLine)
    (hNF : line.reConnection.length = 5 ∨ line.reFailedLogin.length ≠ 6)
    (hFF : line.reFinalFailedLogin.length = 4 →
      m.get (sprintfKey (line.reFinalFailedLogin.getD 2 "")
        (line.reFinalFailedLogin.getD 3 "")) = none)
    (hM : line.reMaxAuthExceeded.length = 4 →
      m.get (sprintfKey (line.reMaxAuthExceeded.getD 2 "")
        (line.reMaxAuthExceeded.getD 3 "")) = none)
    (hS : line.reSuccessfulLogin.length = 4 →
      m.get (sprintfKey (line.reSuccessfulLogin.getD 2 "")
        (line.reSuccessfulLogin.getD 3 "")) = none)
    (hD : line.reDisconnected.length = 4 →
      m.get (sprintfKey (line.reDisconnected.getD 2 "") (line.reDisconnected.getD 3 "")) = none)
    (hCl : line.reClosed.length = 3 →
      m.get (sprintfKey (line.reClosed.getD 1 "") (line.reClosed.getD 2 "")) = none) :
    (monitorSshLogin d getTs m line).1 = m := by
  by_cases hT : 2 ≤ line.reTime.length
  · rw [monitorSshLogin_stamped d getTs m line hT]
    unfold classifyLine
    split_ifs with h1 h2 h3 h4 h5 h6 h7
    · rfl
    · rcases hNF with h | h
      · exact absurd h h1
      · exact absurd h2 h
    · exact setDeleteIfExists_absent m _ (hFF h3)
    · exact setDeleteIfExists_absent m _ (hM h4)
    · exact setUserIfExists_absent m _ _ (hS h5)
    · exact setDeleteIfExists_absent m _ (hD h6)
    · exact setDeleteIfExists_absent m _ (hCl h7)
    · rfl
  · rw [monitorSshLogin_unstamped d getTs m line (by omega)]

theorem absent_key_line_leaves_table_witness :
    (monitorSshLogin "dev" (fun _ => 0) bobTable disconnectedLine).1 = bobTable :=
  absent_key_line_leaves_table "dev" (fun _ => 0) bobTable disconnectedLine
    (by decide) (by decide) (by decide) (by decide) (by decide) (by decide)

theorem setDeleteIfExists_idem (m : SessionTable) (key : String) :
    setDeleteIfExists (setDeleteIfExists m key) key = setDeleteIfExists m key := by
  cases hg : m.get key with
  | none =>
    rw [setDeleteIfExists_absent m key hg, setDeleteIfExists_absent m key hg]
  | some s0 =>
    have h1 : setDeleteIfExists m key = m.set key { s0 with delete := true } := by
      unfold setDeleteIfExists
      rw [hg]
    have h2 : (m.set key { s0 with delete := true }).get key =
        some { s0 with delete := true } := by
      rw [get_set, if_pos rfl]
    rw [h1]
    unfold setDeleteIfExists
    rw [h2]
    exact set_set m key _ _

theorem setUserIfExists_idem (m : SessionTable) (key user : String) :
    setUserIfExists (setUserIfExists m key user) key user = setUserIfExists m key user := by
  cases hg : m.get key with
  | none =>
    rw [setUserIfExists_absent m key user hg, setUserIfExists_absent m key user hg]
  | some s0 =>
    have h1 : setUserIfExists m key user = m.set key { s0 with user := user } := by
      unfold setUserIfExists
      rw [hg]
    have h2 : (m.set key { s0 with user := user }).get key =
        some { s0 with user := user } := by
      rw [get_set, if_pos rfl]
    rw [h1]
    unfold setUserIfExists
    rw [h2]
    exact set_set m key _ _

theorem classifyLine_table (ts : Int) (m : SessionTable) (line : LogLine) :
    (classifyLine ts m line).1 =
      if line.reConnection.length = 5 then m
      else if line.reFailedLogin.length = 6 then
        m.set (sprintfKey (line.reFailedLogin.getD 4 "") (line.reFailedLogin.getD 5 ""))
          (match m.get (sprintfKey (line.reFailedLogin.getD 4 "")
              (line.reFailedLogin.getD 5 "")) with
            | some session => { session with user := line.reFailedLogin.getD 3 "" }
            | none =>
              { ip := (Split (sprintfKey (line.reFailedLogin.getD 4 "")
                  (line.reFailedLogin.getD 5 ""))).getD 0 "",
                port := (Split (sprintfKey (line.reFailedLogin.getD 4 "")
                  (line.reFailedLogin.getD 5 ""))).getD 1 "",
                user := line.reFailedLogin.getD 3 "" })
      else if line.reFinalFailedLogin.length = 4 then
        setDeleteIfExists m (sprintfKey (line.reFinalFailedLogin.getD 2 "")
          (line.reFinalFailedLogin.getD 3 ""))
      else if line.reMaxAuthExceeded.length = 4 then
        setDeleteIfExists m (sprintfKey (line.reMaxAuthExceeded.getD 2 "")
          (line.reMaxAuthExceeded.getD 3 ""))
      else if line.reSuccessfulLogin.length = 4 then
        setUserIfExists m (sprintfKey (line.reSuccessfulLogin.getD 2 "")
          (line.reSuccessfulLogin.getD 3 "")) (line.reSuccessfulLogin.getD 1 "")
      else if line.reDisconnected.length = 4 then
        setDeleteIfExists m (sprintfKey (line.reDisconnected.getD 2 "")
          (line.reDisconnected.getD 3 ""))
      else if line.reClosed.length = 3 then
        setDeleteIfExists m (sprintfKey (line.reClosed.getD 1 "") (line.reClosed.getD 2 ""))
      else m := by
  unfold classifyLine
  split_ifs
  · rfl
  · dsimp only
    cases m.get (sprintfKey (line.reFailedLogin.getD 4 "") (line.reFailedLogin.getD 5 "")) <;> rfl
  · rfl
  · rfl
  · rfl
  · rfl
  · rfl
  · rfl

theorem classifyLine_table_idem (ts : Int) (m : SessionTable) (line : LogLine) :
    (classifyLine ts (classifyLine ts m line).1 line).1 = (classifyLine ts m line).1 := by
  rw [classifyLine_table ts m line]
  split_ifs with h1 h2 h3 h4 h5 h6 h7
  · rw [classifyLine_table, if_pos h1]
  · rw [classifyLine_table, if_neg h1, if_pos h2, get_set, if_pos rfl, set_set]
    cases m.get (sprintfKey (line.reFailedLogin.getD 4 "") (line.reFailedLogin.getD 5 "")) <;> rfl
  · rw [classifyLine_table, if_neg h1, if_neg h2, if_pos h3]
    exact setDeleteIfExists_idem m _
  · rw [classifyLine_table, if_neg h1, if_neg h2, if_neg h3, if_pos h4]
    exact setDeleteIfExists_idem m _
  · rw [classifyLine_table, if_neg h1, if_neg h2, if_neg h3, if_neg h4, if_pos h5]
    exact setUserIfExists_idem m _ _
  · rw [classifyLine_table, if_neg h1, if_neg h2, if_neg h3, if_neg h4, if_neg h5, if_pos h6]
    exact setDeleteIfExists_idem m _
  · rw [classifyLine_table, if_neg h1, if_neg h2, if_neg h3, if_neg h4, if_neg h5, if_neg h6,
      if_pos h7]
    exact setDeleteIfExists_idem m _
  · rw [classifyLine_table, if_neg h1, if_neg h2, if_neg h3, if_neg h4, if_neg h5, if_neg h6,
      if_neg h7]

/-- C15: marking for deletion is idempotent: for every table and every line, in
particular every disconnect, generic connection-closed and final-failed-login
line, the table obtained by processing the line twice equals the table obtained
by processing it once. -/
theorem processing_line_twice_equals_once (d : String) (getTs : String → Int)
    (m : SessionTable) (line : LogLine) :
    (monitorSshLogin d getTs (monitorSshLogin d getTs m line).1 line).1 =
      (monitorSshLogin d getTs m line).1 := by
  by_cases hT : 2 ≤ line.reTime.length
  · rw [monitorSshLogin_stamped d getTs m line hT, monitorSshLogin_stamped d getTs _ line hT]
    exact classifyLine_table_idem _ m line
  · rw [monitorSshLogin_unstamped d getTs m line (by omega),
      monitorSshLogin_unstamped d getTs m line (by omega)]

/-! ## Time stamps -/

theorem classifyLine_metric_tsMs (ts : Int) (m : SessionTable) (line : LogLine)
    (metric : sshSession) (h : (classifyLine ts m line).2 = some metric) : metric.tsMs = ts := by
  unfold classifyLine at h
  split_ifs at h <;> simp [newSshSesion] at h <;> subst h <;> rfl

theorem classifyLine_metric_isSome (ts : Int) (m : SessionTable) (line : LogLine)
    (h : line.reConnection.length = 5 ∨ line.reFailedLogin.length = 6 ∨
      line.reFinalFailedLogin.length = 4 ∨ line.reMaxAuthExceeded.length = 4 ∨
      line.reSuccessfulLogin.length = 4 ∨ line.reDisconnected.length = 4 ∨
      line.reClosed.length = 3) :
    ∃ metric, (classifyLine ts m line).2 = some metric := by
  unfold classifyLine
  split_ifs with h1 h2 h3 h4 h5 h6 h7
  · exact ⟨_, rfl⟩
  · exact ⟨_, rfl⟩
  · exact ⟨_, rfl⟩
  · exact ⟨_, rfl⟩
  · exact ⟨_, rfl⟩
  · exact ⟨_, rfl⟩
  · exact ⟨_, rfl⟩
  · rcases h with h | h | h | h | h | h | h
    · exact absurd h h1
    · exact absurd h h2
    · exact absurd h h3
    · exact absurd h h4
    · exact absurd h h5
    · exact absurd h h6
    · exact absurd h h7

theorem getTsFromAuditLog_fallback (c : Clock) (stamp : String)
    (hClassic : c.matchClassic stamp = true → c.parseClassic stamp = none)
    (hISO : c.parseISO stamp = none) (hShort : c.parseISOshort stamp = none) :
    getTsFromAuditLog c stamp = c.nowMs := by
  unfold getTsFromAuditLog
  by_cases he : stamp = ""
  · simp [he]
  · by_cases hm : c.matchClassic stamp = true
    · simp [he, hm, hClassic hm, hISO, hShort]
    · simp [he, hm, hISO, hShort]

/-- C16, as stated, fails: a failed-login line without a time stamp produces no
event and no entry, while the same line with the time stamp `Jun 1 10:00:01`
produces the `login_attempt_fail` event, stamped with the parsed time, and the
entry. -/
theorem unstamped_failed_login_line_is_dropped :
    monitorSshLogin "dev" (getTsFromAuditLog juneClock) [] unstampedFailedLine = ([], []) ∧
      monitorSshLogin "dev" (getTsFromAuditLog juneClock) [] failedRootLine =
        ([("10.0.0.5:51000", { ip := "10.0.0.5", port := "51000", user := "root" })],
          [(newSshSesion "root" "10.0.0.5" "51000" NEW_SSH_FAILED_LOGIN_ATTEMPT
              1717236001000).TelegrafNormalize "dev"]) := by
  decide

/-- C16 (amended): a line without a recognised time stamp produces no event and
leaves the table unchanged, whatever patterns it matches. A line with a
recognised time stamp produces, for the first pattern it matches in the order
connection, failed login, connection closed while authenticating, maximum
attempts exceeded, accepted password, disconnected, connection closed, exactly
one event of that pattern's type with the captured user, ip and port, and applies
that pattern's side effect to the table (none for a connection; set or create the
user for a failed login; set `delete` on an existing entry for the final failures
and the two logouts; set the user of an existing entry for a login); it produces
nothing when no pattern matches. Every event carries the time
`getTsFromAuditLog` gives for the matched stamp, which is the current wall-clock
time whenever none of the three parsers accepts the stamp. -/
theorem timestamp_gates_the_line (d : String) (c : Clock) (m : SessionTable) (line : LogLine) :
    (line.reTime.length < 2 → monitorSshLogin d (getTsFromAuditLog c) m line = (m, [])) ∧
      (2 ≤ line.reTime.length →
        monitorSshLogin d (getTsFromAuditLog c) m line =
          if line.reConnection.length = 5 then
            (m,
              [({ tsMs := getTsFromAuditLog c (line.reTime.getD 1 ""), user := "",
                  ip := line.reConnection.getD 1 "", port := line.reConnection.getD 2 "",
                  event := "conn" } : sshSession).TelegrafNormalize d])
          else if line.reFailedLogin.length = 6 then
            (m.set (sprintfKey (line.reFailedLogin.getD 4 "") (line.reFailedLogin.getD 5 ""))
                (match m.get (sprintfKey (line.reFailedLogin.getD 4 "")
                    (line.reFailedLogin.getD 5 "")) with
                  | some session => { session with user := line.reFailedLogin.getD 3 "" }
                  | none =>
                    { ip := (Split (sprintfKey (line.reFailedLogin.getD 4 "")
                        (line.reFailedLogin.getD 5 ""))).getD 0 "",
                      port := (Split (sprintfKey (line.reFailedLogin.getD 4 "")
                        (line.reFailedLogin.getD 5 ""))).getD 1 "",
                      user := line.reFailedLogin.getD 3 "" }),
              [({ tsMs := getTsFromAuditLog c (line.reTime.getD 1 ""),
                  user := line.reFailedLogin.getD 3 "", ip := line.reFailedLogin.getD 4 "",
                  port := line.reFailedLogin.getD 5 "",
                  event := "login_attempt_fail" } : sshSession).TelegrafNormalize d])
          else if line.reFinalFailedLogin.length = 4 then
            ((match m.get (sprintfKey (line.reFinalFailedLogin.getD 2 "")
                  (line.reFinalFailedLogin.getD 3 "")) with
                | some session =>
                  m.set (sprintfKey (line.reFinalFailedLogin.getD 2 "")
                    (line.reFinalFailedLogin.getD 3 "")) { session with delete := true }
                | none => m),
              [({ tsMs := getTsFromAuditLog c (line.reTime.getD 1 ""),
                  user := line.reFinalFailedLogin.getD 1 "",
                  ip := line.reFinalFailedLogin.getD 2 "",
                  port := line.reFinalFailedLogin.getD 3 "",
                  event := "login_fail" } : sshSession).TelegrafNormalize d])
          else if line.reMaxAuthExceeded.length = 4 then
            ((match m.get (sprintfKey (line.reMaxAuthExceeded.getD 2 "")
                  (line.reMaxAuthExceeded.getD 3 "")) with
                | some session =>
                  m.set (sprintfKey (line.reMaxAuthExceeded.getD 2 "")
                    (line.reMaxAuthExceeded.getD 3 "")) { session with delete := true }
                | none => m),
              [({ tsMs := getTsFromAuditLog c (line.reTime.getD 1 ""),
                  user := line.reMaxAuthExceeded.getD 1 "",
                  ip := line.reMaxAuthExceeded.getD 2 "",
                  port := line.reMaxAuthExceeded.getD 3 "",
                  event := "login_fail" } : sshSession).TelegrafNormalize d])
          else if line.reSuccessfulLogin.length = 4 then
            ((match m.get (sprintfKey (line.reSuccessfulLogin.getD 2 "")
                  (line.reSuccessfulLogin.getD 3 "")) with
                | some session =>
                  m.set (sprintfKey (line.reSuccessfulLogin.getD 2 "")
                    (line.reSuccessfulLogin.getD 3 ""))
                    { session with user := line.reSuccessfulLogin.getD 1 "" }
                | none => m),
              [({ tsMs := getTsFromAuditLog c (line.reTime.getD 1 ""),
                  user := line.reSuccessfulLogin.getD 1 "",
                  ip := line.reSuccessfulLogin.getD 2 "",
                  port := line.reSuccessfulLogin.getD 3 "",
                  event := "login" } : sshSession).TelegrafNormalize d])
          else if line.reDisconnected.length = 4 then
            ((match m.get (sprintfKey (line.reDisconnected.getD 2 "")
                  (line.reDisconnected.getD 3 "")) with
                | some session =>
                  m.set (sprintfKey (line.reDisconnected.getD 2 "")
                    (line.reDisconnected.getD 3 "")) { session with delete := true }
                | none => m),
              [({ tsMs := getTsFromAuditLog c (line.reTime.getD 1 ""),
                  user := line.reDisconnected.getD 1 "", ip := line.reDisconnected.getD 2 "",
                  port := line.reDisconnected.getD 3 "",
                  event := "logout" } : sshSession).TelegrafNormalize d])
          else if line.reClosed.length = 3 then
            ((match m.get (sprintfKey (line.reClosed.getD 1 "") (line.reClosed.getD 2 "")) with
                | some session =>
                  m.set (sprintfKey (line.reClosed.getD 1 "") (line.reClosed.getD 2 ""))
                    { session with delete := true }
                | none => m),
              [({ tsMs := getTsFromAuditLog c (line.reTime.getD 1 ""),
                  user :=
                    (match m.get (sprintfKey (line.reClosed.getD 1 "")
                        (line.reClosed.getD 2 "")) with
                      | some session => session.user
                      | none => ""),
                  ip := line.reClosed.getD 1 "", port := line.reClosed.getD 2 "",
                  event := "logout" } : sshSession).TelegrafNormalize d])
          else (m, [])) ∧
      (∀ e ∈ (monitorSshLogin d (getTsFromAuditLog c) m line).2,
        e.Time = getTsFromAuditLog c (line.reTime.getD 1 "")) ∧
      ((c.matchClassic (line.reTime.getD 1 "") = true →
          c.parseClassic (line.reTime.getD 1 "") = none) →
        c.parseISO (line.reTime.getD 1 "") = none →
        c.parseISOshort (line.reTime.getD 1 "") = none →
        getTsFromAuditLog c (line.reTime.getD 1 "") = c.nowMs) := by
  refine ⟨fun hT => monitorSshLogin_unstamped d _ m line hT, fun hT => ?_, ?_,
    fun h1 h2 h3 => getTsFromAuditLog_fallback c _ h1 h2 h3⟩
  · rw [monitorSshLogin_stamped d _ m line hT]
    unfold classifyLine
    split_ifs
    · rfl
    · dsimp only
      cases m.get (sprintfKey (line.reFailedLogin.getD 4 "")
        (line.reFailedLogin.getD 5 "")) <;> rfl
    · rfl
    · rfl
    · rfl
    · rfl
    · rfl
    · rfl
  · intro e he
    by_cases hT : 2 ≤ line.reTime.length
    · rw [monitorSshLogin_stamped d _ m line hT] at he
      cases hmetric : (classifyLine (getTsFromAuditLog c (line.reTime.getD 1 "")) m line).2 with
      | none =>
        rw [hmetric] at he
        exact absurd he (List.not_mem_nil e)
      | some metric =>
        rw [hmetric] at he
        have he2 : e = metric.TelegrafNormalize d := List.mem_singleton.1 he
        subst he2
        rw [(normalize_tags d metric).2.2.2.2.2]
        exact classifyLine_metric_tsMs _ m line metric hmetric
    · rw [monitorSshLogin_unstamped d _ m line (by omega)] at he
      simp at he

theorem timestamp_gates_the_line_witness :
    monitorSshLogin "dev" (getTsFromAuditLog juneClock) bobTable unstampedFailedLine =
        (bobTable, []) ∧
      monitorSshLogin "dev" (getTsFromAuditLog juneClock) rxOnlyTable disconnectedLine =
        ([("10.0.0.5:51000",
            { ip := "10.0.0.5", port := "51000", user := "alice", bytesRecv := 120,
              delete := true })],
          [({ tsMs := 1717236300000, user := "alice", ip := "10.0.0.5", port := "51000",
              event := "logout" } : sshSession).TelegrafNormalize "dev"]) ∧
      (∀ e ∈ (monitorSshLogin "dev" (getTsFromAuditLog juneClock) bobTable
          badStampFailedLine).2, e.Time = 1717236600000) :=
  ⟨(timestamp_gates_the_line "dev" juneClock bobTable unstampedFailedLine).1 (by decide),
    ((timestamp_gates_the_line "dev" juneClock rxOnlyTable disconnectedLine).2.1
      (by decide)).trans (by decide),
    fun e he =>
      ((timestamp_gates_the_line "dev" juneClock bobTable badStampFailedLine).2.2.1 e he).trans
        ((timestamp_gates_the_line "dev" juneClock bobTable badStampFailedLine).2.2.2
          (fun _ => rfl) rfl rfl)⟩

/-! ## Normalised events -/

/-- C18: for every `sshSession` the normalised event has exactly the tags `ip`,
`port`, `group = SSH`, `eventType` and `user` (`unknown` when the user is empty),
and exactly one field: `connbytes = bytesRecv` for `ssh_session_rx_bytes`,
`connbytes = bytesSent` for `ssh_session_tx_bytes`, and `authevent = 1` for each
of the five lifecycle event types. -/
theorem TelegrafNormalize_tags_and_fields (d : String) (s : sshSession) :
    (s.TelegrafNormalize d).Tags =
        [("ip", s.ip), ("port", s.port), ("group", "SSH"), ("eventType", s.event),
          ("user", if s.user = "" then "unknown" else s.user)] ∧
      (s.event = SSH_SESSION_RX_BYTES →
        (s.TelegrafNormalize d).Fields = [("connbytes", FieldValue.uint64 s.bytesRecv)]) ∧
      (s.event = SSH_SESSION_TX_BYTES →
        (s.TelegrafNormalize d).Fields = [("connbytes", FieldValue.uint64 s.bytesSent)]) ∧
      (s.event ∈ [NEW_SSH_NEW_CONN, NEW_SSH_LOGIN, NEW_SSH_FAILED_LOGIN_ATTEMPT,
          NEW_SSH_FINAL_LOGIN_FAILED, NEW_SSH_LOGOUT] →
        (s.TelegrafNormalize d).Fields = [("authevent", FieldValue.int 1)]) := by
  refine ⟨rfl, ?_, ?_, ?_⟩
  · intro h
    simp [sshSession.TelegrafNormalize, h]
  · intro h
    have hne : SSH_SESSION_TX_BYTES ≠ SSH_SESSION_RX_BYTES := by decide
    simp [sshSession.TelegrafNormalize, h, hne]
  · intro h
    have h1 : s.event ≠ SSH_SESSION_RX_BYTES := by
      intro he
      rw [he] at h
      revert h
      decide
    have h2 : s.event ≠ SSH_SESSION_TX_BYTES := by
      intro he
      rw [he] at h
      revert h
      decide
    simp [sshSession.TelegrafNormalize, h1, h2]

theorem TelegrafNormalize_tags_and_fields_witness :
    ((rxMetric 1000 { ip := "10.0.0.5", port := "51000", bytesRecv := 120 }).TelegrafNormalize
          "dev").Fields = [("connbytes", FieldValue.uint64 120)] ∧
      ((txMetric 1000 { ip := "10.0.0.5", port := "51000", bytesSent := 64 }).TelegrafNormalize
          "dev").Fields = [("connbytes", FieldValue.uint64 64)] ∧
      ((newSshSesion "" "10.0.0.5" "51000" NEW_SSH_LOGOUT 1000).TelegrafNormalize "dev").Fields =
        [("authevent", FieldValue.int 1)] ∧
      ((newSshSesion "" "10.0.0.5" "51000" NEW_SSH_LOGOUT 1000).TelegrafNormalize "dev").Tags =
        [("ip", "10.0.0.5"), ("port", "51000"), ("group", "SSH"), ("eventType", "logout"),
          ("user", "unknown")] :=
  ⟨(TelegrafNormalize_tags_and_fields "dev"
      (rxMetric 1000 { ip := "10.0.0.5", port := "51000", bytesRecv := 120 })).2.1 rfl,
    (TelegrafNormalize_tags_and_fields "dev"
      (txMetric 1000 { ip := "10.0.0.5", port := "51000", bytesSent := 64 })).2.2.1 rfl,
    (TelegrafNormalize_tags_and_fields "dev"
      (newSshSesion "" "10.0.0.5" "51000" NEW_SSH_LOGOUT 1000)).2.2.2 (by decide),
    (TelegrafNormalize_tags_and_fields "dev"
      (newSshSesion "" "10.0.0.5" "51000" NEW_SSH_LOGOUT 1000)).1⟩

/-! ## End-to-end scenario and the mutex of the packet loop -/

/-- C19: the end-to-end scenario on the empty table with local address 10.0.0.9
and listening port 22: the connection line emits a `conn` event for
10.0.0.5:51000; the accepted-password line emits a `login` event of user alice;
the record of length 120 raises `bytesRecv` of key `10.0.0.5:51000` from nothing
to 120; the next flush emits exactly one rx event, with `connbytes = 120`, and
leaves the counter at 0; the disconnect line sets the `delete` flag; and the
following flush, without traffic, emits nothing and removes the entry. -/
theorem end_to_end_scenario :
    scenarioConnection.2.map (fun e => (e.tag "ip", e.tag "port", e.tag "eventType")) =
        [("10.0.0.5", "51000", "conn")] ∧
      scenarioLogin.2.map (fun e => (e.tag "eventType", e.tag "user")) = [("login", "alice")] ∧
      scenarioLogin.1.get "10.0.0.5:51000" = none ∧
      (scenarioRecord.get "10.0.0.5:51000").map (fun s => (s.bytesRecv, s.bytesSent)) =
        some (120, 0) ∧
      (scenarioFlush.2.filter (fun e => e.tag "eventType" = "ssh_session_rx_bytes")).map
          (fun e => (e.tag "ip", e.tag "port", e.field "connbytes")) =
        [("10.0.0.5", "51000", some (FieldValue.uint64 120))] ∧
      (scenarioFlush.1.get "10.0.0.5:51000").map (fun s => s.bytesRecv) = some 0 ∧
      (scenarioDisconnect.1.get "10.0.0.5:51000").map (fun s => s.delete) = some true ∧
      scenarioLastFlush.2 = [] ∧
      scenarioLastFlush.1.get "10.0.0.5:51000" = none := by
  decide

theorem snifferLoopBody_unlocks (names : Nat → Option String) (A : String) (P : Nat)
    (m : SessionTable) (pkt : Packet) (h : pkt.SrcPort = P ∨ pkt.DstPort = P) :
    snifferLoopBody names A P false m pkt = some (snifferSshTraffic names A P m pkt, false) := by
  unfold snifferLoopBody
  by_cases hkey : getKeyMap names A P pkt = ""
  · simp [hkey, snifferSshTraffic]
  · by_cases h1 : pkt.SrcPort = P
    · simp [hkey, h1]
    · have h2 : pkt.DstPort = P := h.resolve_left h1
      simp [hkey, h1, h2]

/-- C20: the code at the failing input. With local address 10.0.0.9 and
listening port 22, the record 10.0.0.5:51000 → 10.0.0.9:8080 arrives with the
mutex free; the body locks it, inserts the entry and proceeds to the next record
with the mutex still held, and the next record that reaches `Lock` never gets
past it. -/
theorem sniffer_keeps_mutex_on_unknown_traffic :
    snifferLoopBody noPortNames "10.0.0.9" 22 false []
        ⟨"10.0.0.5", "10.0.0.9", 51000, 8080, 120⟩ =
        some ([("10.0.0.5:51000", { ip := "10.0.0.5", port := "51000" })], true) ∧
      snifferLoopBody noPortNames "10.0.0.9" 22 true
        [("10.0.0.5:51000", { ip := "10.0.0.5", port := "51000" })]
        ⟨"10.0.0.5", "10.0.0.9", 51000, 22, 120⟩ = none := by
  decide

/-! ## The key of an entry is the key of its record -/

theorem digitChar_ne_colon (d : Nat) (h : d < 10) : Nat.digitChar d ≠ ':' := by
  interval_cases d <;> decide

theorem toDigitsCore_no_colon (fuel : Nat) :
    ∀ (n : Nat) (ds : List Char), ':' ∉ ds → ':' ∉ Nat.toDigitsCore 10 fuel n ds := by
  induction fuel with
  | zero => intro n ds h; simpa [Nat.toDigitsCore] using h
  | succ fuel ih =>
    intro n ds h
    have hd : ':' ∉ Nat.digitChar (n % 10) :: ds := by
      intro hm
      rcases List.mem_cons.1 hm with h1 | h1
      · exact digitChar_ne_colon _ (Nat.mod_lt _ (by decide)) h1.symm
      · exact h h1
    simp only [Nat.toDigitsCore]
    split
    · exact hd
    · exact ih _ _ hd

theorem toString_colonFree (n : Nat) : ColonFree (toString n) := by
  show ':' ∉ (Nat.repr n).data
  simp only [Nat.repr, Nat.toDigits, List.asString]
  exact toDigitsCore_no_colon _ _ _ (by simp)

theorem TCPPort_String_colonFree (names : Nat → Option String) (hn : PortNamesColonFree names)
    (p : Nat) : ColonFree (TCPPort.String names p) := by
  unfold TCPPort.String
  cases h : names p with
  | none => exact toString_colonFree p
  | some name =>
    have h1 := toString_colonFree p
    have h2 := hn p name h
    unfold ColonFree at h1 h2 ⊢
    simp [h1, h2]

theorem keysMatch_set (m : SessionTable) (key : String) (v : sshSession) (hm : KeysMatch m)
    (hv : key = sprintfKey v.ip v.port) : KeysMatch (m.set key v) := by
  intro k s hk
  rw [get_set] at hk
  by_cases hkk : key = k
  · subst hkk
    simp at hk
    subst hk
    exact hv
  · simp [hkk] at hk
    exact hm k s hk

theorem keysMatch_setDeleteIfExists (m : SessionTable) (key : String) (hm : KeysMatch m) :
    KeysMatch (setDeleteIfExists m key) := by
  unfold setDeleteIfExists
  cases hg : m.get key with
  | none => exact hm
  | some s0 => exact keysMatch_set m key _ hm (hm key s0 hg)

theorem keysMatch_setUserIfExists (m : SessionTable) (key user : String) (hm : KeysMatch m) :
    KeysMatch (setUserIfExists m key user) := by
  unfold setUserIfExists
  cases hg : m.get key with
  | none => exact hm
  | some s0 => exact keysMatch_set m key _ hm (hm key s0 hg)

theorem keysMatch_classifyLine (ts : Int) (m : SessionTable) (line : LogLine)
    (hm : KeysMatch m) (hline : (Step.logLine line).InputShape) :
    KeysMatch (classifyLine ts m line).1 := by
  rw [classifyLine_table]
  split_ifs with h1 h2 h3 h4 h5 h6 h7
  · exact hm
  · obtain ⟨hip, hport⟩ := hline h2
    cases hg : m.get (sprintfKey (line.reFailedLogin.getD 4 "")
        (line.reFailedLogin.getD 5 "")) with
    | none =>
      apply keysMatch_set _ _ _ hm
      simp only [Split_sprintfKey _ _ hip hport]
      rfl
    | some s0 => exact keysMatch_set _ _ _ hm (hm _ s0 hg)
  · exact keysMatch_setDeleteIfExists m _ hm
  · exact keysMatch_setDeleteIfExists m _ hm
  · exact keysMatch_setUserIfExists m _ _ hm
  · exact keysMatch_setDeleteIfExists m _ hm
  · exact keysMatch_setDeleteIfExists m _ hm
  · exact hm

theorem keysMatch_monitorSshLogin (d : String) (getTs : String → Int) (m : SessionTable)
    (line : LogLine) (hm : KeysMatch m) (hline : (Step.logLine line).InputShape) :
    KeysMatch (monitorSshLogin d getTs m line).1 := by
  by_cases hT : 2 ≤ line.reTime.length
  · rw [monitorSshLogin_stamped d getTs m line hT]
    exact keysMatch_classifyLine _ m line hm hline
  · rw [monitorSshLogin_unstamped d getTs m line (by omega)]
    exact hm

theorem getKeyMap_shape (names : Nat → Option String) (A : String) (P : Nat) (pkt : Packet)
    (hn : PortNamesColonFree names) (hpkt : (Step.record pkt).InputShape) :
    getKeyMap names A P pkt = "" ∨
      ∃ ip port, ColonFree ip ∧ ColonFree port ∧ getKeyMap names A P pkt = sprintfKey ip port := by
  obtain ⟨hsrc, hdst⟩ := hpkt
  unfold getKeyMap
  split_ifs
  · exact Or.inr ⟨_, _, hdst, TCPPort_String_colonFree names hn _, rfl⟩
  · exact Or.inr ⟨_, _, hsrc, TCPPort_String_colonFree names hn _, rfl⟩
  · exact Or.inl rfl

theorem keysMatch_snifferSshTraffic (names : Nat → Option String) (A : String) (P : Nat)
    (m : SessionTable) (pkt : Packet) (hm : KeysMatch m) (hn : PortNamesColonFree names)
    (hpkt : (Step.record pkt).InputShape) :
    KeysMatch (snifferSshTraffic names A P m pkt) := by
  rcases getKeyMap_shape names A P pkt hn hpkt with hkey | ⟨ip, port, hip, hport, hkey⟩
  · unfold snifferSshTraffic
    simp only [hkey, if_true]
    exact hm
  · have hne : getKeyMap names A P pkt ≠ "" := by
      rw [hkey]
      exact sprintfKey_ne_empty _ _
    have hnew : sprintfKey ip port =
        sprintfKey (sessionOrNew m (sprintfKey ip port)).ip
          (sessionOrNew m (sprintfKey ip port)).port := by
      unfold sessionOrNew
      cases hg : m.get (sprintfKey ip port) with
      | none =>
        simp only [Split_sprintfKey ip port hip hport]
        rfl
      | some s0 => exact hm _ s0 hg
    intro k s hk
    rw [snifferSshTraffic_get names A P m pkt k hne, hkey] at hk
    by_cases hkk : sprintfKey ip port = k
    · rw [if_pos hkk] at hk
      rw [← hkk]
      split_ifs at hk <;> (cases hk; exact hnew)
    · rw [if_neg hkk] at hk
      exact hm k s hk

theorem keysMatch_flushFold (d : String) (now : Int) (ks : List String) :
    ∀ (st : SessionTable × List TelegrafEvent), KeysMatch st.1 →
      KeysMatch (ks.foldl (flushSession d now) st).1 := by
  induction ks with
  | nil => intro st h; exact h
  | cons k0 rest ih =>
    intro st h
    rw [List.foldl_cons]
    exact ih _ (flushSession_keysMatch d now st k0 h)

theorem keysMatch_checkBytesStatistics (d : String) (now : Int) (m : SessionTable)
    (hm : KeysMatch m) : KeysMatch (checkBytesStatistics d now m).1 :=
  keysMatch_flushFold d now m.keys (m, []) hm

theorem keysMatch_nil : KeysMatch [] := by
  intro k s h
  simp [SessionTable.get] at h

theorem keysMatch_getActiveSSHSessions (lineMatches : List (List String)) :
    KeysMatch (getActiveSSHSessions lineMatches) := by
  unfold getActiveSSHSessions
  suffices h : ∀ (m : SessionTable), KeysMatch m →
      KeysMatch (lineMatches.foldl
        (fun sessions ms =>
          if ms.length = 6 then
            sessions.set (sprintfKey (ms.getD 3 "") (ms.getD 4 ""))
              { user := ms.getD 5 "", ip := ms.getD 3 "", port := ms.getD 4 "" }
          else sessions) m) from h [] keysMatch_nil
  induction lineMatches with
  | nil => intro m hm; exact hm
  | cons ms rest ih =>
    intro m hm
    rw [List.foldl_cons]
    apply ih
    split_ifs
    · exact keysMatch_set _ _ _ hm rfl
    · exact hm

theorem keysMatch_runSteps (d : String) (getTs : String → Int) (names : Nat → Option String)
    (A : String) (P : Nat) (hn : PortNamesColonFree names) (steps : List Step) :
    ∀ (m : SessionTable), KeysMatch m → (∀ s ∈ steps, s.InputShape) →
      KeysMatch (runSteps d getTs names A P m steps) := by
  induction steps with
  | nil => intro m hm _; exact hm
  | cons st rest ih =>
    intro m hm hsteps
    have hst := hsteps st (List.mem_cons_self _ _)
    have hrest : ∀ s ∈ rest, s.InputShape := fun s hs => hsteps s (List.mem_cons_of_mem _ hs)
    have hstep : runSteps d getTs names A P m (st :: rest) =
        runSteps d getTs names A P (Step.run d getTs names A P m st) rest := by
      simp [runSteps]
    rw [hstep]
    apply ih _ _ hrest
    cases st with
    | logLine line => exact keysMatch_monitorSshLogin d getTs m line hm hst
    | record pkt => exact keysMatch_snifferSshTraffic names A P m pkt hm hn hst
    | flush now => exact keysMatch_checkBytesStatistics d now m hm

theorem sshPortName_colonFree : PortNamesColonFree sshPortName := by
  intro p name h
  unfold sshPortName at h
  split at h
  · cases h
    unfold ColonFree
    decide
  · cases h

/-- C22: in every table reached from an initial snapshot whose entries sit under
the key `ip:port` of their record (as the one `getActiveSSHSessions` builds), by
any sequence of log-line, captured-record and flush steps on inputs of the shape
the libraries give them, every entry stored under key `k` has `k = ip + ":" +
port`. Consequently, when the flush visits a key, the key it hands to `delete` is
the visited key, no other key is touched by the visit, and after the whole cycle
each key is gone exactly when its own entry was flagged `delete`. -/
theorem key_record_consistency (d : String) (getTs : String → Int)
    (names : Nat → Option String) (A : String) (P : Nat) (m0 : SessionTable)
    (steps : List Step) (hn : PortNamesColonFree names) (h0 : KeysMatch m0)
    (hsteps : ∀ s ∈ steps, s.InputShape) :
    (∀ k s, (runSteps d getTs names A P m0 steps).get k = some s →
        k = s.ip ++ ":" ++ s.port) ∧
      (∀ (now : Int) (evs : List TelegrafEvent) (k0 : String) (stats : sshSession),
        (runSteps d getTs names A P m0 steps).get k0 = some stats →
          sprintfKey stats.ip stats.port = k0 ∧
          ∀ k, k ≠ k0 →
            (flushSession d now (runSteps d getTs names A P m0 steps, evs) k0).1.get k =
              (runSteps d getTs names A P m0 steps).get k) ∧
      (∀ (now : Int) (k : String),
        (checkBytesStatistics d now (runSteps d getTs names A P m0 steps)).1.get k =
          match (runSteps d getTs names A P m0 steps).get k with
          | none => none
          | some s => if s.delete then none else some { s with bytesRecv := 0, bytesSent := 0 }) ∧
      (∀ lineMatches k s, (getActiveSSHSessions lineMatches).get k = some s →
        k = s.ip ++ ":" ++ s.port) := by
  have hm := keysMatch_runSteps d getTs names A P hn steps m0 h0 hsteps
  refine ⟨fun k s h => hm k s h, ?_, ?_, fun lm k s h => keysMatch_getActiveSSHSessions lm k s h⟩
  · intro now evs k0 stats hget
    refine ⟨(hm k0 stats hget).symm, fun k hk => ?_⟩
    rw [flushSession_get d now _ k0 k (fun s h => hm k0 s h), if_neg (Ne.symm hk)]
  · intro now k
    rw [checkBytesStatistics_get d now _ hm k]
    cases (runSteps d getTs names A P m0 steps).get k with
    | none => rfl
    | some s => rfl

theorem key_record_consistency_witness :
    (∀ k s, (runSteps "dev" (fun _ => 0) sshPortName "10.0.0.9" 22
          (getActiveSSHSessions [netstatAlice])
          [Step.logLine failedRootLine, Step.record ⟨"10.0.0.7", "10.0.0.9", 22, 22, 64⟩,
            Step.flush 1000]).get k = some s → k = s.ip ++ ":" ++ s.port) ∧
      (runSteps "dev" (fun _ => 0) sshPortName "10.0.0.9" 22
          (getActiveSSHSessions [netstatAlice])
          [Step.logLine failedRootLine, Step.record ⟨"10.0.0.7", "10.0.0.9", 22, 22, 64⟩,
            Step.flush 1000]).keys = ["10.0.0.5:51000", "10.0.0.7:22(ssh)"] :=
  ⟨(key_record_consistency "dev" (fun _ => 0) sshPortName "10.0.0.9" 22
      (getActiveSSHSessions [netstatAlice])
      [Step.logLine failedRootLine, Step.record ⟨"10.0.0.7", "10.0.0.9", 22, 22, 64⟩,
        Step.flush 1000]
      sshPortName_colonFree (keysMatch_getActiveSSHSessions [netstatAlice])
      (by
        intro s hs
        simp only [List.mem_cons, List.mem_singleton, List.not_mem_nil, or_false] at hs
        rcases hs with rfl | rfl | rfl
        · intro _
          exact ⟨by unfold ColonFree; decide, by unfold ColonFree; decide⟩
        · exact ⟨by unfold ColonFree; decide, by unfold ColonFree; decide⟩
        · trivial)).1,
    by decide⟩

/-! ## Idle back-off -/

theorem base_cast : (MONITOR_SSH_LOGIN_BASE_TIME : ℝ) = 20000000 := by
  norm_num [MONITOR_SSH_LOGIN_BASE_TIME]

theorem limit_cast : (MONITOR_SSH_LOGIN_LIMIT_TIME : ℝ) = 5000000000 := by
  norm_num [MONITOR_SSH_LOGIN_LIMIT_TIME]

theorem delayFloat_eq_clamp (n : Nat) :
    delayFloat n = min (max (unclampedDelay n) 20000000) 5000000000 := by
  unfold delayFloat
  simp only [base_cast, limit_cast]
  by_cases h1 : unclampedDelay n < 20000000
  · have hmax : max (unclampedDelay n) 20000000 = 20000000 := max_eq_right h1.le
    rw [if_pos h1, hmax]
    norm_num
  · have hmax : max (unclampedDelay n) 20000000 = unclampedDelay n := max_eq_left (not_lt.1 h1)
    rw [if_neg h1, hmax]
    by_cases h2 : unclampedDelay n > 5000000000
    · rw [if_pos h2, min_eq_right h2.le]
    · rw [if_neg h2, min_eq_left (not_lt.1 h2)]

theorem unclampedDelay_mono (n1 n2 : Nat) (h : n1 ≤ n2) :
    unclampedDelay n1 ≤ unclampedDelay n2 := by
  unfold unclampedDelay Log1p
  rw [base_cast]
  have h1 : (0 : ℝ) < 1 + (n1 : ℝ) * 5 := by positivity
  have h2 : (1 : ℝ) + (n1 : ℝ) * 5 ≤ 1 + (n2 : ℝ) * 5 := by
    have : (n1 : ℝ) ≤ n2 := by exact_mod_cast h
    linarith
  have := Real.log_le_log h1 h2
  nlinarith

theorem delayFloat_bounds (n : Nat) :
    (20000000 : ℝ) ≤ delayFloat n ∧ delayFloat n ≤ 5000000000 := by
  rw [delayFloat_eq_clamp]
  constructor
  · exact le_min (le_max_right _ _) (by norm_num)
  · exact min_le_right _ _

theorem backoffDelay_eq_floor (n : Nat) : backoffDelay n = ⌊delayFloat n⌋ := by
  unfold backoffDelay
  have := (delayFloat_bounds n).1
  rw [if_pos (by linarith)]

/-- C17: with base 20 ms, limit 5 s and factor 5, the idle back-off delay is
monotone and bounded: for idle counts `n1 < n2` the delay for `n2` is at least
the delay for `n1`, and both lie between the base and the limit. -/
theorem backoff_monotone_and_bounded (n1 n2 : Nat) (h : n1 < n2) :
    backoffDelay n1 ≤ backoffDelay n2 ∧
      MONITOR_SSH_LOGIN_BASE_TIME ≤ backoffDelay n1 ∧
      backoffDelay n1 ≤ MONITOR_SSH_LOGIN_LIMIT_TIME ∧
      MONITOR_SSH_LOGIN_BASE_TIME ≤ backoffDelay n2 ∧
      backoffDelay n2 ≤ MONITOR_SSH_LOGIN_LIMIT_TIME := by
  have hb : ∀ n, MONITOR_SSH_LOGIN_BASE_TIME ≤ backoffDelay n ∧
      backoffDelay n ≤ MONITOR_SSH_LOGIN_LIMIT_TIME := by
    intro n
    rw [backoffDelay_eq_floor]
    obtain ⟨h1, h2⟩ := delayFloat_bounds n
    constructor
    · rw [Int.le_floor, base_cast]
      exact h1
    · have := Int.floor_le_floor h2
      simpa [MONITOR_SSH_LOGIN_LIMIT_TIME] using this
  refine ⟨?_, (hb n1).1, (hb n1).2, (hb n2).1, (hb n2).2⟩
  rw [backoffDelay_eq_floor, backoffDelay_eq_floor]
  apply Int.floor_le_floor
  rw [delayFloat_eq_clamp, delayFloat_eq_clamp]
  exact min_le_min (max_le_max (unclampedDelay_mono n1 n2 h.le) le_rfl) le_rfl

theorem backoff_monotone_and_bounded_witness :
    backoffDelay 1 ≤ backoffDelay 2 ∧
      MONITOR_SSH_LOGIN_BASE_TIME ≤ backoffDelay 1 ∧
      backoffDelay 1 ≤ MONITOR_SSH_LOGIN_LIMIT_TIME ∧
      MONITOR_SSH_LOGIN_BASE_TIME ≤ backoffDelay 2 ∧
      backoffDelay 2 ≤ MONITOR_SSH_LOGIN_LIMIT_TIME :=
  backoff_monotone_and_bounded 1 2 (by decide)

/-- C23: with base 20 ms, limit 5 s and factor 5, neither clamp takes effect:
for every idle count `n` with `1 ≤ n < 2^63` the unclamped value
`20 ms * ln(1 + 5n)` is strictly greater than 20 ms and strictly less than 1 s,
so the clamped value is the unclamped one, the delay slept is its truncation, and
the 5 s limit is never reached. -/
theorem backoff_never_clamped (n : Nat) (h1 : 1 ≤ n) (h2 : n < 2 ^ 63) :
    (MONITOR_SSH_LOGIN_BASE_TIME : ℝ) < unclampedDelay n ∧
      unclampedDelay n < 1000000000 ∧
      delayFloat n = unclampedDelay n ∧
      backoffDelay n = ⌊unclampedDelay n⌋ ∧
      backoffDelay n < MONITOR_SSH_LOGIN_LIMIT_TIME := by
  have hn1 : (1 : ℝ) ≤ n := by exact_mod_cast h1
  have hn2 : (n : ℝ) < 2 ^ 63 := by exact_mod_cast h2
  have hpos : (0 : ℝ) < 1 + (n : ℝ) * 5 := by positivity
  have hlo : (1 : ℝ) < Real.log (1 + (n : ℝ) * 5) := by
    rw [Real.lt_log_iff_exp_lt hpos]
    have := Real.exp_one_lt_d9
    linarith
  have hhi : Real.log (1 + (n : ℝ) * 5) < 50 := by
    rw [Real.log_lt_iff_lt_exp hpos]
    have he : (2.7 : ℝ) < Real.exp 1 := by
      have := Real.exp_one_gt_d9
      linarith
    have hpow : (2.7 : ℝ) ^ 50 < Real.exp 1 ^ 50 := by
      exact pow_lt_pow_left₀ he (by norm_num) (by norm_num)
    have hexp : Real.exp 1 ^ 50 = Real.exp 50 := by
      rw [← Real.exp_nat_mul]
      norm_num
    have hnum : (1 : ℝ) + 2 ^ 63 * 5 < 2.7 ^ 50 := by norm_num
    linarith
  have hu1 : (20000000 : ℝ) < unclampedDelay n := by
    unfold unclampedDelay Log1p
    rw [base_cast]
    nlinarith
  have hu2 : unclampedDelay n < 1000000000 := by
    unfold unclampedDelay Log1p
    rw [base_cast]
    nlinarith
  have hc : delayFloat n = unclampedDelay n := by
    rw [delayFloat_eq_clamp, max_eq_left hu1.le, min_eq_left (by linarith)]
  refine ⟨by rw [base_cast]; exact hu1, hu2, hc, ?_, ?_⟩
  · rw [backoffDelay_eq_floor, hc]
  · rw [backoffDelay_eq_floor, hc, Int.floor_lt, limit_cast]
    linarith

theorem backoff_never_clamped_witness :
    (MONITOR_SSH_LOGIN_BASE_TIME : ℝ) < unclampedDelay 1 ∧
      unclampedDelay 1 < 1000000000 ∧
      delayFloat 1 = unclampedDelay 1 ∧
      backoffDelay 1 = ⌊unclampedDelay 1⌋ ∧
      backoffDelay 1 < MONITOR_SSH_LOGIN_LIMIT_TIME :=
  backoff_never_clamped 1 (by decide) (by norm_num)

end ssh_guard

namespace og_report

/-! ## Fillers -/

theorem checkFiller_append_of_no_match {Metric : Type} (fillers : List (Filler Metric))
    (f : Filler Metric) (h : ∀ g ∈ fillers, ¬ sameFiller g f) :
    checkFiller fillers f = fillers ++ [f] := by
  induction fillers with
  | nil => rfl
  | cons g rest ih =>
    have hg : ¬ sameFiller g f := h g (List.mem_cons_self _ _)
    have hrest : ∀ x ∈ rest, ¬ sameFiller x f := fun x hx => h x (List.mem_cons_of_mem _ hx)
    simp [checkFiller, hg, ih hrest]

theorem checkFiller_merge_first_match {Metric : Type} (pre post : List (Filler Metric))
    (g f : Filler Metric) (hpre : ∀ x ∈ pre, ¬ sameFiller x f) (hg : sameFiller g f) :
    checkFiller (pre ++ g :: post) f =
      pre ++ { g with metrics := g.metrics ++ f.metrics } :: post := by
  induction pre with
  | nil => simp [checkFiller, hg]
  | cons x rest ih =>
    have hx : ¬ sameFiller x f := hpre x (List.mem_cons_self _ _)
    have hrest : ∀ y ∈ rest, ¬ sameFiller y f := fun y hy => hpre y (List.mem_cons_of_mem _ hy)
    simp [checkFiller, hx, ih hrest]

theorem newFillerOf_path (o : OGReport) (metric : Metric) :
    (newFillerOf o metric).pathInBody = [] ∨
      ∃ x, x ≠ "" ∧ (newFillerOf o metric).pathInBody = [x] := by
  unfold newFillerOf
  dsimp only
  split_ifs with h1 h2 h3 h4 h5 h6 h7 h8 <;>
    first
      | exact Or.inl rfl
      | exact Or.inr ⟨_, ‹_›, rfl⟩

theorem Join_inj_of_short (p q : List String)
    (hp : p = [] ∨ ∃ x, x ≠ "" ∧ p = [x]) (hq : q = [] ∨ ∃ x, x ≠ "" ∧ q = [x]) :
    Join p "-" = Join q "-" ↔ p = q := by
  rcases hp with rfl | ⟨x, hx, rfl⟩ <;> rcases hq with rfl | ⟨y, hy, rfl⟩
  · simp
  · simp [Join, Ne.symm hy]
  · simp [Join, hx]
  · simp [Join]

/-- C21, as stated, fails: the list holds no filler with the path `["a-b"]` of the
new filler, yet the new filler is not appended: its metrics go to the filler with
path `["a", "b"]`; and when a filler with the same path follows that one, the
metrics still go to the filler with path `["a", "b"]`. -/
theorem checkFiller_merges_paths_with_equal_join :
    splitPathFiller.pathInBody ≠ dashPathFiller.pathInBody ∧
      checkFiller [splitPathFiller] dashPathFiller =
        [{ splitPathFiller with metrics := [1, 2] }] ∧
      checkFiller [splitPathFiller, dashPathFiller] { dashPathFiller with metrics := [4] } =
        [{ splitPathFiller with metrics := [1, 4] }, dashPathFiller] := by
  decide

/-- C21 (amended): `checkFiller(fillers, f)` looks for the first filler with the
same `deviceIdInUri`, the same `deviceIdInBody` and a `pathInBody` whose elements
joined with `-` give the same string as those of `f`. If there is one, the
metrics of `f` are appended to its metrics and the list keeps its length and
order; if there is none, the result is the list with `f` appended as last element
and every existing filler unchanged. For two fillers that `Write` builds, equal
joined paths are equal paths. -/
theorem checkFiller_merges_first_or_appends {Metric : Type} (fillers : List (Filler Metric))
    (f : Filler Metric) :
    (∀ pre g post, fillers = pre ++ g :: post → (∀ x ∈ pre, ¬ sameFiller x f) →
        sameFiller g f →
        checkFiller fillers f = pre ++ { g with metrics := g.metrics ++ f.metrics } :: post ∧
          (checkFiller fillers f).length = fillers.length) ∧
      ((∀ g ∈ fillers, ¬ sameFiller g f) → checkFiller fillers f = fillers ++ [f]) ∧
      (∀ (o : OGReport) (a b : og_report.Metric),
        sameFiller (newFillerOf o a) (newFillerOf o b) ↔
          (newFillerOf o a).deviceIdInUri = (newFillerOf o b).deviceIdInUri ∧
          (newFillerOf o a).pathInBody = (newFillerOf o b).pathInBody ∧
          (newFillerOf o a).deviceIdInBody = (newFillerOf o b).deviceIdInBody) := by
  refine ⟨?_, checkFiller_append_of_no_match fillers f, ?_⟩
  · intro pre g post hfill hpre hg
    subst hfill
    rw [checkFiller_merge_first_match pre post g f hpre hg]
    simp
  · intro o a b
    unfold sameFiller
    rw [Join_inj_of_short _ _ (newFillerOf_path o a) (newFillerOf_path o b)]

theorem checkFiller_merges_first_or_appends_witness :
    (checkFiller [otherFiller, splitPathFiller, dashPathFiller] dashPathFiller =
        [otherFiller] ++
          { splitPathFiller with metrics := splitPathFiller.metrics ++ dashPathFiller.metrics } ::
            [dashPathFiller] ∧
        (checkFiller [otherFiller, splitPathFiller, dashPathFiller] dashPathFiller).length =
          [otherFiller, splitPathFiller, dashPathFiller].length) ∧
      checkFiller [otherFiller] dashPathFiller = [otherFiller] ++ [dashPathFiller] :=
  ⟨(checkFiller_merges_first_or_appends [otherFiller, splitPathFiller, dashPathFiller]
      dashPathFiller).1 [otherFiller] splitPathFiller [dashPathFiller] rfl (by decide)
      (by decide),
    (checkFiller_merges_first_or_appends [otherFiller] dashPathFiller).2.1 (by decide)⟩

end og_report
